import Mathlib

/-!
Verification development for the PupStitch pattern compilation and
document-layout engine.

The TypeScript sources are shallowly embedded: JavaScript numbers are
modelled as rationals (`ℚ`), with `Option ℚ` where `NaN` can arise
(`Pup.JSNum`); JavaScript's falsy-default idiom `x || d` is modelled by
the `jsOr*` helpers; objects that the source mutates through shared
references (`pattern.customizations`, `pattern.analysisResult`,
`pattern.generatedPattern`, `pattern.editorState`) are modelled as cells
of an explicit heap (`Pup.Heap`) addressed by `Nat` references, so that
the aliasing created by the spread-copy `{ ...pattern }` is visible.
Thrown errors are modelled with `Except String`.
-/

namespace Pup

/-!
JavaScript numbers of the generator/customizer are modelled as the
unnormalized rational pairs `JQ` below (numerator, positive denominator),
with semantic comparisons by cross-multiplication.  Mathlib's `ℚ` is not
used there because its arithmetic is `@[irreducible]` and concrete
witnesses could not evaluate; `JQ`'s operations reduce in the kernel.
Every `JQ` value the embedding constructs has a positive denominator, so
the cross-multiplication comparisons agree with the rational order.
-/

/-- Unnormalized rational: `n / d` with `d > 0` by construction. -/
structure JQ where
  n : ℤ
  d : ℤ
deriving Repr, DecidableEq

instance (m : Nat) : OfNat JQ m := ⟨⟨(m : ℤ), 1⟩⟩

instance : IntCast JQ := ⟨fun z => ⟨z, 1⟩⟩

instance : NatCast JQ := ⟨fun m => ⟨(m : ℤ), 1⟩⟩

instance : Add JQ := ⟨fun a b => ⟨a.n * b.d + b.n * a.d, a.d * b.d⟩⟩

instance : Sub JQ := ⟨fun a b => ⟨a.n * b.d - b.n * a.d, a.d * b.d⟩⟩

instance : Mul JQ := ⟨fun a b => ⟨a.n * b.n, a.d * b.d⟩⟩

/-- Division, keeping the denominator positive.  (A zero divisor gives the
degenerate `d = 0`; every division in the embedded code is guarded.) -/
instance : Div JQ := ⟨fun a b =>
  if 0 ≤ b.n then ⟨a.n * b.d, a.d * b.n⟩ else ⟨-(a.n * b.d), a.d * (-b.n)⟩⟩

/-- Semantic equality (JS `===` on numbers). -/
def qeqb (a b : JQ) : Bool := a.n * b.d = b.n * a.d

/-- Semantic `≤`. -/
def qleb (a b : JQ) : Bool := a.n * b.d ≤ b.n * a.d

/-- Semantic `<`. -/
def qltb (a b : JQ) : Bool := a.n * b.d < b.n * a.d

/-- JavaScript `Math.max` on two numbers. -/
def qmax (a b : JQ) : JQ := if qleb a b then b else a

/-- JavaScript `Math.min` on two numbers. -/
def qmin (a b : JQ) : JQ := if qleb a b then a else b

/-- Floor of a rational with positive denominator. -/
def qfloor (q : JQ) : ℤ := Int.fdiv q.n q.d

/-- Truncation toward zero (JS `%` uses truncated division). -/
def qTrunc (q : JQ) : ℤ := Int.tdiv q.n q.d

/-- JavaScript `o || d` where `o` is an optional string: `undefined` and
the empty string are falsy. -/
def jsOrStr (o : Option String) (d : String) : String :=
  match o with
  | some s => if s = "" then d else s
  | none => d

/-- JavaScript `s || d` for a non-optional string. -/
def jsOrStrS (s : String) (d : String) : String :=
  if s = "" then d else s

/-- JavaScript `o || d` where `o` is an optional number: `undefined` and
`0` are falsy. -/
def jsOrQ (o : Option JQ) (d : JQ) : JQ :=
  match o with
  | some q => if qeqb q 0 then d else q
  | none => d

/-- JavaScript `q || d` for a non-optional number (`0` is falsy). -/
def jsOrQS (q : JQ) (d : JQ) : JQ :=
  if qeqb q 0 then d else q

/-- JavaScript `n || d` for a non-optional integer (`0` is falsy). -/
def jsOrIntS (n : ℤ) (d : ℤ) : ℤ :=
  if n = 0 then d else n

/-- JavaScript `Math.round`: half-up rounding, `⌊q + 1/2⌋`. -/
def jsRound (q : JQ) : ℤ := qfloor (q + 1/2)

/-- JavaScript `Math.ceil`: `⌈q⌉ = -⌊-q⌋`. -/
def jsCeil (q : JQ) : ℤ := -(Int.fdiv (-(q.n)) q.d)

/-- ASCII model of JavaScript `String.prototype.toLowerCase`. -/
def strLower (s : String) : String := String.mk (s.data.map Char.toLower)

/-- JavaScript `\s` whitespace (ASCII part). -/
def isJsSpace (c : Char) : Bool :=
  c = ' ' || c = '\t' || c = '\n' || c = '\x0d' || c = '\x0b' || c = '\x0c'

/-- Substring search over character lists (JS `String.prototype.includes`). -/
def listHasInfix (pat : List Char) : List Char → Bool
  | [] => pat.isEmpty
  | c :: rest => pat.isPrefixOf (c :: rest) || listHasInfix pat rest

/-- JavaScript `hay.includes(pat)`. -/
def strContains (hay pat : String) : Bool :=
  listHasInfix pat.data hay.data

/-- Remove the first occurrence of a character (JS `s.replace('#', '')`
replaces only the first match of a string pattern). -/
def removeFirstChar (c : Char) : List Char → List Char
  | [] => []
  | x :: xs => if x = c then xs else x :: removeFirstChar c xs

/-- JavaScript `s.substring(start, start+len)` as take/drop on characters. -/
def substr (s : String) (start len : Nat) : String :=
  String.mk ((s.data.drop start).take len)

/-- Capitalize: `s.charAt(0).toUpperCase() + s.slice(1)`. -/
def capFirst (s : String) : String :=
  match s.data with
  | [] => ""
  | c :: cs => String.mk (Char.toUpper c :: cs)

theorem length_dropWhile_le' (p : Char → Bool) :
    ∀ l : List Char, (l.dropWhile p).length ≤ l.length := by
  intro l
  induction l with
  | nil => simp [List.dropWhile]
  | cons c rest ih =>
    by_cases h : p c
    · simp only [List.dropWhile, h]
      exact Nat.le_succ_of_le ih
    · simp [List.dropWhile, h]

/-- Split on maximal runs of separator characters, keeping empty pieces at
the ends, as JavaScript `s.split(/[sep]+/)` does. -/
def splitRunsAux (p : Char → Bool) : List Char → List Char → List String
  | acc, [] => [String.mk acc.reverse]
  | acc, c :: rest =>
    if p c then
      String.mk acc.reverse :: splitRunsAux p [] (rest.dropWhile p)
    else
      splitRunsAux p (c :: acc) rest
termination_by _ l => l.length
decreasing_by
  all_goals simp_wf
  all_goals exact Nat.lt_succ_of_le (length_dropWhile_le' p rest)

/-- JavaScript `s.split(/[sep]+/)` for a character-class separator. -/
def jsSplitRuns (p : Char → Bool) (s : String) : List String :=
  splitRunsAux p [] s.data

/-- Strip a leading `\d+\.\s*` (used on assembly steps: `step.replace(/^\d+\.\s*[/], '')`). -/
def stripLeadingNum (s : String) : String :=
  let ds := s.data.takeWhile Char.isDigit
  if ds.isEmpty then s
  else
    match s.data.drop ds.length with
    | '.' :: rest => String.mk (rest.dropWhile isJsSpace)
    | _ => s

-- ===========================================================================
-- JavaScript number semantics with NaN (`Option ℚ`, `none` = NaN)
-- ===========================================================================

/-- JavaScript number that may be NaN. -/
def JSNum := Option JQ

instance : DecidableEq JSNum :=
  inferInstanceAs (DecidableEq (Option JQ))

/-- Addition with NaN propagation. -/
def nadd : JSNum → JSNum → JSNum
  | some a, some b => some (a + b)
  | _, _ => none

/-- Subtraction with NaN propagation. -/
def nsub : JSNum → JSNum → JSNum
  | some a, some b => some (a - b)
  | _, _ => none

/-- Multiplication with NaN propagation. -/
def nmul : JSNum → JSNum → JSNum
  | some a, some b => some (a * b)
  | _, _ => none

/-- Division with NaN propagation.  A zero denominator yields `none`; in the
embedded code every division is guarded so that the denominator is a nonzero
number on all reachable paths. -/
def ndiv : JSNum → JSNum → JSNum
  | some a, some b => if qeqb b 0 then none else some (a / b)
  | _, _ => none

/-- JavaScript remainder `a % b` (truncated; `x % 0` is NaN). -/
def nmod : JSNum → JSNum → JSNum
  | some a, some b => if qeqb b 0 then none else some (a - b * ((qTrunc (a / b) : ℤ) : JQ))
  | _, _ => none

/-- JavaScript `Math.max` over three arguments (NaN-absorbing). -/
def nmax3 : JSNum → JSNum → JSNum → JSNum
  | some a, some b, some c => some (qmax a (qmax b c))
  | _, _, _ => none

/-- JavaScript `Math.min` over three arguments (NaN-absorbing). -/
def nmin3 : JSNum → JSNum → JSNum → JSNum
  | some a, some b, some c => some (qmin a (qmin b c))
  | _, _, _ => none

/-- Strict equality `===` of two JS numbers (`NaN === x` is false). -/
def jsEqNum : JSNum → JSNum → Bool
  | some a, some b => qeqb a b
  | _, _ => false

/-- Comparison `x < c` (false when `x` is NaN). -/
def nlt (x : JSNum) (c : JQ) : Bool :=
  match x with
  | some q => qltb q c
  | none => false

/-- Comparison `x > c` (false when `x` is NaN). -/
def ngt (x : JSNum) (c : JQ) : Bool :=
  match x with
  | some q => qltb c q
  | none => false

/-- Comparison `x ≤ c` (false when `x` is NaN). -/
def nle (x : JSNum) (c : JQ) : Bool :=
  match x with
  | some q => qleb q c
  | none => false

/-- Comparison `x ≥ c` (false when `x` is NaN). -/
def nge (x : JSNum) (c : JQ) : Bool :=
  match x with
  | some q => qleb c q
  | none => false

/-- Hexadecimal digit value. -/
def hexDigitVal (c : Char) : Option ℤ :=
  if '0' ≤ c ∧ c ≤ '9' then some ((c.toNat : ℤ) - ('0'.toNat : ℤ))
  else if 'a' ≤ c ∧ c ≤ 'f' then some (10 + (c.toNat : ℤ) - ('a'.toNat : ℤ))
  else if 'A' ≤ c ∧ c ≤ 'F' then some (10 + (c.toNat : ℤ) - ('A'.toNat : ℤ))
  else none

/-- JavaScript `parseInt(s, 16)`: skip whitespace, optional sign, optional
`0x`/`0X`, then the maximal run of leading hex digits; NaN (`none`) when no
digit is found. -/
def parseIntHex (s : String) : Option ℤ :=
  let l := s.data.dropWhile isJsSpace
  let (sign, l) : ℤ × List Char :=
    match l with
    | '-' :: rest => (-1, rest)
    | '+' :: rest => (1, rest)
    | _ => (1, l)
  let l :=
    match l with
    | '0' :: 'x' :: rest => rest
    | '0' :: 'X' :: rest => rest
    | _ => l
  let digits := l.takeWhile (fun c => (hexDigitVal c).isSome)
  if digits.isEmpty then none
  else some (sign * digits.foldl (fun acc c => 16 * acc + ((hexDigitVal c).getD 0)) 0)

-- ===========================================================================
-- hexToColorName (generator: hex → human-readable yarn color name)
-- ===========================================================================

/-- Normalization step of `hexToColorName`:
`hex.replace('#', '').toLowerCase()`. -/
def normHex (hexs : String) : String :=
  strLower (String.mk (removeFirstChar '#' hexs.data))

/-- Embedding of `hexToColorName` from the generator: normalize, reject
non-6-character inputs by returning the input, then classify by
brightness / saturation / hue with JavaScript NaN semantics for
unparsable components. -/
def hexToColorName (hexs : String) : String :=
  let h := normHex hexs
  if h.length ≠ 6 then hexs
  else
    let r : JSNum := (parseIntHex (substr h 0 2)).map (fun n => (n : JQ))
    let g : JSNum := (parseIntHex (substr h 2 2)).map (fun n => (n : JQ))
    let b : JSNum := (parseIntHex (substr h 4 2)).map (fun n => (n : JQ))
    let brightness := ndiv (nadd (nadd r g) b) (some 3)
    let mx := nmax3 r g b
    let mn := nmin3 r g b
    let saturation := if jsEqNum mx (some 0) then some 0 else ndiv (nsub mx mn) mx
    if nlt brightness 30 then "Black"
    else if ngt brightness 230 && nlt saturation (1/10) then "White"
    else if nlt saturation (12/100) then
      if nlt brightness 80 then "Charcoal"
      else if nlt brightness 140 then "Gray"
      else if nlt brightness 200 then "Light Gray"
      else "Off-White"
    else
      let hue0 : JSNum :=
        if jsEqNum mx mn then some 0
        else if jsEqNum mx r then
          nmul (some 60) (nmod (ndiv (nsub g b) (nsub mx mn)) (some 6))
        else if jsEqNum mx g then
          nmul (some 60) (nadd (ndiv (nsub b r) (nsub mx mn)) (some 2))
        else
          nmul (some 60) (nadd (ndiv (nsub r g) (nsub mx mn)) (some 4))
      let hue := if nlt hue0 0 then nadd hue0 (some 360) else hue0
      if nge hue 15 && nle hue 50 then
        if nlt brightness 60 then "Dark Brown"
        else if nlt brightness 100 then "Brown"
        else if nlt brightness 140 then "Warm Brown"
        else if nlt brightness 180 then "Tan"
        else "Golden"
      else if nge hue 10 && nlt hue 15 then
        if nlt brightness 100 then "Rust" else "Orange"
      else if nge hue 50 && nlt hue 70 then
        if nlt brightness 120 then "Olive" else "Yellow"
      else if nlt hue 10 || nge hue 340 then
        if nlt brightness 80 then "Maroon"
        else if nlt brightness 140 then "Dark Red"
        else "Red"
      else if nge hue 70 && nlt hue 170 then "Green"
      else if nge hue 170 && nlt hue 260 then "Blue"
      else if nge hue 260 && nlt hue 300 then "Purple"
      else if nge hue 300 && nlt hue 340 then "Pink"
      else "Medium"

-- ===========================================================================
-- Data model (from the TypeScript type definitions; fields not read by the
-- embedded code paths are omitted)
-- ===========================================================================

/-- A custom color assignment in the pattern palette. -/
structure ColorAssignment where
  colorKey : String
  hexCode : String
  yarnName : Option String := none
  yardageUsed : Option JQ := none
deriving Repr, DecidableEq

/-- JSON row template of a body part (preset file format). -/
structure JsonRow where
  rowNumber : ℤ
  instructions : String
  stitchCount : ℤ
  colorKey : Option String := none
deriving Repr, DecidableEq

instance : Inhabited JsonRow :=
  ⟨{ rowNumber := 0, instructions := "", stitchCount := 0 }⟩

/-- A color zone: a contiguous row range assigned one color key. -/
structure ColorZone where
  id : String := ""
  startRow : ℤ
  endRow : ℤ
  colorKey : String
  description : String := ""
deriving Repr, DecidableEq

/-- A JavaScript value of type `string | string[] | undefined`
(the shape of `assemblyNotes` on a JSON body part). -/
inductive JsStrOrArr where
  | undef
  | str (s : String)
  | arr (l : List String)
deriving Repr, DecidableEq

/-- JSON body part from a preset file. -/
structure JsonBodyPart where
  name : String
  quantity : ℤ
  rows : List JsonRow
  assemblyNotes : JsStrOrArr := .undef
  colorZones : Option (List ColorZone) := none
deriving Repr, DecidableEq

/-- Breed preset (the fields the embedded code reads).  `bodyParts` models
the TypeScript record `Record<BodyPartName, BodyPart>` as a partial map. -/
structure BreedPreset where
  breedId : String
  name : String := ""
  bodyParts : String → Option JsonBodyPart
  assemblyInstructions : List String
  skillLevel : String
  hookSize : String
  yarnWeight : String
  defaultEarShape : String

/-- Detected color palette of the analysis. -/
structure BreedColors where
  primary : String
  secondary : Option String := none
  tertiary : Option String := none
  accent : Option String := none
deriving Repr, DecidableEq

/-- Body proportions detected from photo analysis. -/
structure BodyProportions where
  headToBodyRatio : JQ
  legLength : JQ := 0
  tailLength : JQ
  earSize : JQ
  snoutLength : JQ
  buildType : String
deriving Repr, DecidableEq

/-- Per-body-part analysis from AI vision. -/
structure BodyPartAnalysis where
  partName : String
  colors : List String
  primaryColor : String
  markings : List String
  shape : String
  texture : String
  relativeSize : JQ
  crochetNotes : String
deriving Repr, DecidableEq

/-- Complete AI analysis result (fields the embedded code reads). -/
structure DogAnalysisResult where
  detectedBreed : String
  confidenceScore : JQ := 1
  colors : BreedColors
  earShape : String
  tailType : String
  bodyProportions : Option BodyProportions := none
  bodyPartAnalysis : Option (List BodyPartAnalysis) := none
  photoUrl : String := ""
deriving Repr, DecidableEq

/-- Customization options applied to a pattern.  The string-keyed JS objects
`toggledFeatures` and `proportionAdjustments` are modelled as partial maps. -/
structure PatternCustomizations where
  colorAssignments : List ColorAssignment
  toggledFeatures : String → Option Bool
  proportionAdjustments : String → Option JQ
  difficultyLevel : String
  hookSizeOverride : Option String := none
  yarnWeightOverride : Option String := none
  sizeMultiplier : JQ
  notes : Option String := none

/-- `Partial<PatternCustomizations>`: every field optionally absent. -/
structure PartialCustomizations where
  colorAssignments : Option (List ColorAssignment) := none
  toggledFeatures : Option (String → Option Bool) := none
  proportionAdjustments : Option (String → Option JQ) := none
  difficultyLevel : Option String := none
  hookSizeOverride : Option String := none
  yarnWeightOverride : Option String := none
  sizeMultiplier : Option JQ := none
  notes : Option String := none

/-- View a full customizations object as a partial one (spreading a full
object into a merge makes every field present). -/
def toPartial (c : PatternCustomizations) : PartialCustomizations :=
  { colorAssignments := some c.colorAssignments,
    toggledFeatures := some c.toggledFeatures,
    proportionAdjustments := some c.proportionAdjustments,
    difficultyLevel := some c.difficultyLevel,
    hookSizeOverride := c.hookSizeOverride,
    yarnWeightOverride := c.yarnWeightOverride,
    sizeMultiplier := some c.sizeMultiplier,
    notes := c.notes }

/-- Compiled stitch instruction. -/
structure StitchInstruction where
  rowNumber : ℤ
  instruction : String
  stitchesUsed : List String
  notes : Option String := none
deriving Repr, DecidableEq

instance : Inhabited StitchInstruction :=
  ⟨{ rowNumber := 0, instruction := "", stitchesUsed := [] }⟩

/-- One compiled pattern section. -/
structure PatternSection where
  name : String
  bodyParts : List String
  instructions : List StitchInstruction
  notes : Option String := none
  estimatedTime : JQ
  difficultyNotes : Option String := none
deriving Repr, DecidableEq

instance : Inhabited PatternSection :=
  ⟨{ name := "", bodyParts := [], instructions := [], estimatedTime := 0 }⟩

/-- Complete generated crochet pattern.  `Date` values are modelled as
abstract `Nat` ticks supplied by the caller. -/
structure GeneratedPattern where
  title : String
  description : String
  sections : List PatternSection
  abbreviations : List (String × String)
  assemblyInstructions : List String
  skillLevel : String
  estimatedTotalTime : JQ
  notes : String
  generatedAt : Nat
deriving Repr, DecidableEq

/-- A notion (haberdashery item) on the materials list. -/
structure Notion where
  name : String
  quantity : ℤ
  unit : String
deriving Repr, DecidableEq

/-- Yarn details for the materials list. -/
structure YarnInfo where
  name : String
  colorName : String
  hexCode : String
  yardage : ℤ
  weight : String
deriving Repr, DecidableEq

instance : Inhabited YarnInfo :=
  ⟨{ name := "", colorName := "", hexCode := "", yardage := 0, weight := "" }⟩

/-- Materials needed for the pattern. -/
structure PatternMaterials where
  yarns : List YarnInfo
  hookSize : String
  hookSizeInfo : String
  notions : List Notion
  stuffingAmount : JQ
  stuffingType : String
  additionalSupplies : List String
  totalYardageNeeded : ℤ
deriving Repr, DecidableEq

/-- State of the pattern editor. -/
structure PatternEditorState where
  activeTab : String
  expandedSections : List String
  hasUnsavedChanges : Bool
  lastEditedAt : Nat
  editHistory : List (Nat × String)
deriving Repr, DecidableEq

/-- The aggregate pattern record.  The nested objects that the source
mutates through shared references — `analysisResult`, `customizations`,
`generatedPattern`, `editorState` — are heap references (`Nat` indexes into
`Heap` below), so that the shallow copy `{ ...pattern }` is a plain record
copy sharing those references, exactly as in JavaScript. -/
structure CustomPattern where
  id : String
  userId : String
  name : String
  description : String := ""
  dogPhotoUrl : String
  breedId : String
  analysisResult : Nat
  customizations : Nat
  generatedPattern : Nat
  materials : PatternMaterials
  editorState : Option Nat := none
  exportFormats : List String
  createdAt : Nat
  updatedAt : Nat
  visibility : String
deriving Repr, DecidableEq

-- ===========================================================================
-- Fixed lookup tables (generator)
-- ===========================================================================

/-- Yardage table for size `small` (yards per piece). -/
def yardageSmall : String → Option JQ
  | "head" => some 18 | "body" => some 22 | "frontLeg" => some 8
  | "backLeg" => some 8 | "ear" => some 5 | "tail" => some 6
  | "snout" => some 5 | "nose" => some 2 | "eyePatch" => some 3
  | _ => none

/-- Yardage table for size `medium`. -/
def yardageMedium : String → Option JQ
  | "head" => some 40 | "body" => some 50 | "frontLeg" => some 18
  | "backLeg" => some 18 | "ear" => some 10 | "tail" => some 12
  | "snout" => some 10 | "nose" => some 4 | "eyePatch" => some 5
  | _ => none

/-- Yardage table for size `large`. -/
def yardageLarge : String → Option JQ
  | "head" => some 65 | "body" => some 80 | "frontLeg" => some 30
  | "backLeg" => some 30 | "ear" => some 18 | "tail" => some 20
  | "snout" => some 15 | "nose" => some 6 | "eyePatch" => some 8
  | _ => none

/-- `YARDAGE_BY_SIZE`. -/
def yardageBySize : String → Option (String → Option JQ)
  | "small" => some yardageSmall
  | "medium" => some yardageMedium
  | "large" => some yardageLarge
  | _ => none

/-- `STUFFING_BY_SIZE` (ounces). -/
def stuffingBySize : String → Option JQ
  | "small" => some (3/2) | "medium" => some 4 | "large" => some 8 | _ => none

/-- `SAFETY_EYES_BY_SIZE`. -/
def safetyEyesBySize : String → Option String
  | "small" => some "6-8mm" | "medium" => some "9-12mm"
  | "large" => some "12-15mm" | _ => none

/-- `HEIGHT_BY_SIZE`. -/
def heightBySize : String → Option String
  | "small" => some "~4 inches (10 cm)" | "medium" => some "~8 inches (20 cm)"
  | "large" => some "~12 inches (30 cm)" | _ => none

/-- `STUFFING_LEVEL` per body part. -/
def stuffingLevel : String → Option String
  | "head" => some "firmly" | "body" => some "firmly"
  | "frontLeg" => some "moderately" | "backLeg" => some "moderately"
  | "ear" => some "lightly (or leave flat)" | "tail" => some "lightly"
  | "snout" => some "moderately" | "nose" => some "very lightly"
  | "eyePatch" => some "do not stuff" | _ => none

/-- `PRESET_TO_AI_PART`: preset body part names → AI analysis part names. -/
def presetToAiPart : String → Option String
  | "head" => some "head" | "body" => some "body"
  | "frontLeg" => some "legs" | "backLeg" => some "legs"
  | "ear" => some "ears" | "tail" => some "tail"
  | "snout" => some "snout" | "nose" => some "nose"
  | "eyePatch" => some "head" | _ => none

/-- `getSizeKey`: size string from the size multiplier. -/
def getSizeKey (multiplier : JQ) : String :=
  if qleb multiplier (85/100) then "small"
  else if qleb (13/10) multiplier then "large"
  else "medium"

/-- The fixed canonical body part order. -/
def bodyPartOrder : List String :=
  ["head", "body", "frontLeg", "backLeg", "ear", "tail", "snout", "nose", "eyePatch"]

-- ===========================================================================
-- Color assignment seeding (`buildColorAssignments`)
-- ===========================================================================

/-- Loop body of the per-body-part color assignment pass: thread the
growing assignment list and the set of used yarn names. -/
def bpAssignStep (st : List ColorAssignment × List String) (bp : BodyPartAnalysis) :
    List ColorAssignment × List String :=
  let (asg, used) := st
  if bp.primaryColor = "" then st
  else
    let bpColorKey := "bp-" ++ bp.partName
    let bpName := hexToColorName bp.primaryColor
    let label :=
      if used.contains bpName then bpName ++ " (" ++ capFirst bp.partName ++ ")"
      else bpName
    match asg.find? (fun a => strLower a.hexCode = strLower bp.primaryColor) with
    | some _ => st
    | none =>
      (asg ++ [{ colorKey := bpColorKey, hexCode := bp.primaryColor,
                 yarnName := some label }],
       used ++ [label])

/-- Embedding of `buildColorAssignments`: derive the palette from the
analysis colors plus per-body-part colors plus a dedicated nose entry. -/
def buildColorAssignments (analysis : DogAnalysisResult) : List ColorAssignment :=
  let primaryName := hexToColorName analysis.colors.primary
  let assignments : List ColorAssignment :=
    [{ colorKey := "primary", hexCode := analysis.colors.primary,
       yarnName := some primaryName }]
  let assignments : List ColorAssignment :=
    match analysis.colors.secondary with
    | some sec =>
      if sec = "" then assignments
      else
        let secName := hexToColorName sec
        let label := if secName = primaryName then "Light " ++ secName else secName
        assignments ++ [{ colorKey := "secondary", hexCode := sec, yarnName := some label }]
    | none => assignments
  let assignments : List ColorAssignment :=
    match analysis.colors.tertiary with
    | some ter =>
      if ter = "" then assignments
      else assignments ++
        [{ colorKey := "tertiary", hexCode := ter, yarnName := some (hexToColorName ter) }]
    | none => assignments
  let assignments : List ColorAssignment :=
    match analysis.colors.accent with
    | some acc =>
      if acc = "" then assignments
      else assignments ++
        [{ colorKey := "accent", hexCode := acc, yarnName := some (hexToColorName acc) }]
    | none => assignments
  let assignments : List ColorAssignment :=
    match analysis.bodyPartAnalysis with
    | some bpa =>
      (bpa.foldl bpAssignStep
        (assignments, assignments.filterMap (fun a => a.yarnName))).1
    | none => assignments
  let noseHex0 := "#000000"
  let noseHex1 :=
    match analysis.bodyPartAnalysis with
    | some bpa =>
      match bpa.find? (fun bp => bp.partName = "nose") with
      | some np => if np.primaryColor ≠ "" then np.primaryColor else noseHex0
      | none => noseHex0
    | none => noseHex0
  let noseHex :=
    if noseHex1 = "#000000" then
      match analysis.colors.accent with
      | some acc => if acc = "" then noseHex1 else acc
      | none => noseHex1
    else noseHex1
  if (assignments.find? (fun a => a.colorKey = "nose")).isSome then assignments
  else
    assignments ++
      [{ colorKey := "nose", hexCode := noseHex, yarnName := some (hexToColorName noseHex) }]

/-- Embedding of `getBodyPartColorName`: AI body-part color first, then the
nose assignment, then the primary assignment. -/
def getBodyPartColorName (partName : String) (analysis : DogAnalysisResult)
    (customizations : PatternCustomizations) : String :=
  let aiPartName := jsOrStr (presetToAiPart partName) partName
  let step1 : Option String :=
    match analysis.bodyPartAnalysis with
    | some bpa =>
      match bpa.find? (fun b => b.partName = aiPartName || b.partName = partName) with
      | some bp =>
        if bp.primaryColor ≠ "" then
          match customizations.colorAssignments.find?
              (fun a => strLower a.hexCode = strLower bp.primaryColor) with
          | some m => some (jsOrStr m.yarnName m.colorKey)
          | none => some (hexToColorName bp.primaryColor)
        else none
      | none => none
    | none => none
  match step1 with
  | some s => s
  | none =>
    let step2 : Option String :=
      if partName = "nose" then
        match customizations.colorAssignments.find? (fun a => a.colorKey = "nose") with
        | some na => some (jsOrStr na.yarnName "Black")
        | none => none
      else none
    match step2 with
    | some s => s
    | none =>
      match customizations.colorAssignments.find? (fun a => a.colorKey = "primary") with
      | some pa => jsOrStr pa.yarnName "Main Color"
      | none => "Main Color"

-- ===========================================================================
-- Instruction text transforms
-- ===========================================================================

/-- Match a literal at the head of a character list. -/
def matchLit (lit : List Char) (l : List Char) : Option (List Char) :=
  if lit.isPrefixOf l then some (l.drop lit.length) else none

/-- Match one-or-more digits (`\d+`, greedy; always followed by a non-digit
literal in the patterns below, so greediness agrees with the regex). -/
def matchDigits1 (l : List Char) : Option (List Char) :=
  let ds := l.takeWhile Char.isDigit
  if ds.isEmpty then none else some (l.drop ds.length)

/-- Matcher for `/\(Sc \d+, (inc|dec)\) x \d+/`. -/
def scRepeatMatcher (l : List Char) : Option (List Char) :=
  (matchLit "(Sc ".data l).bind fun l1 =>
  (matchDigits1 l1).bind fun l2 =>
  (matchLit ", ".data l2).bind fun l3 =>
  ((matchLit "inc".data l3).orElse (fun _ => matchLit "dec".data l3)).bind fun l4 =>
  (matchLit ") x ".data l4).bind fun l5 =>
  matchDigits1 l5

/-- Matcher for `/\(Sc \d+, (inc|dec) x \d+/`. -/
def scRepeatOpenMatcher (l : List Char) : Option (List Char) :=
  (matchLit "(Sc ".data l).bind fun l1 =>
  (matchDigits1 l1).bind fun l2 =>
  (matchLit ", ".data l2).bind fun l3 =>
  ((matchLit "inc".data l3).orElse (fun _ => matchLit "dec".data l3)).bind fun l4 =>
  (matchLit " x ".data l4).bind fun l5 =>
  matchDigits1 l5

/-- Matcher for the literal `Magic ring`. -/
def magicRingMatcher (l : List Char) : Option (List Char) :=
  matchLit "Magic ring".data l

/-- Global regex replace: at each position try the matcher; on a match
emit the replacement and continue after the match, otherwise copy one
character.  Every matcher above consumes at least one character, so fuel
equal to the input length suffices. -/
def replaceScan (m : List Char → Option (List Char)) (rep : List Char) :
    Nat → List Char → List Char
  | 0, l => l
  | _ + 1, [] => []
  | fuel + 1, c :: rest =>
    match m (c :: rest) with
    | some rest' => rep ++ replaceScan m rep fuel rest'
    | none => c :: replaceScan m rep fuel rest

/-- JavaScript `s.replace(regex-with-g, rep)`. -/
def jsReplaceAll (m : List Char → Option (List Char)) (rep : String) (s : String) : String :=
  String.mk (replaceScan m rep.data s.data.length s.data)

/-- Embedding of `simplifyInstruction` (simplified difficulty). -/
def simplifyInstruction (instruction : String) : String :=
  jsReplaceAll magicRingMatcher "Start with magic ring"
    (jsReplaceAll scRepeatOpenMatcher "Work increases/decreases evenly"
      (jsReplaceAll scRepeatMatcher "Repeat pattern around" instruction))

/-- Embedding of `addDetailToInstruction` (detailed difficulty). -/
def addDetailToInstruction (instruction : String) : String :=
  let detailed := instruction
  let detailed :=
    if strContains instruction "inc" then
      detailed ++ " — work 2 sc into the same stitch to increase"
    else detailed
  let detailed :=
    if strContains instruction "dec" then
      detailed ++ " — insert hook through front loops of next 2 stitches, yarn over and pull through all loops (invisible decrease)"
    else detailed
  let detailed :=
    if strContains instruction "Magic ring" then
      detailed ++ " — wrap yarn around fingers, insert hook, yarn over and pull through loop, chain 1, work stitches into the ring"
    else detailed
  detailed

/-- Embedding of `extractStitches`: fixed-vocabulary scan, default `["sc"]`. -/
def extractStitches (instruction : String) : List String :=
  let stitches := ["sc", "inc", "dec", "hdc", "dc", "tr", "slst", "ch"].filter
    (fun pat => strContains (strLower instruction) pat)
  if stitches.isEmpty then ["sc"] else stitches

-- ===========================================================================
-- Row-template interpretation (`generateInstructionsFromJsonRows`)
-- ===========================================================================

/-- Row → color map from color zones: the source fills a map zone by zone,
so for a covered row the last covering zone wins. -/
def zoneColorForRow (zones : List ColorZone) (rowNum : ℤ) : Option String :=
  ((zones.filter (fun z => z.startRow ≤ rowNum ∧ rowNum ≤ z.endRow)).getLast?).map
    (fun z => z.colorKey)

/-- Resolved color key of a row:
`row.colorKey || rowColorMap.get(rowNumber) || 'primary'`. -/
def resolveRowColorKey (zones : List ColorZone) (row : JsonRow) : String :=
  jsOrStr row.colorKey (jsOrStr (zoneColorForRow zones row.rowNumber) "primary")

/-- Index of the first row whose lowercased text contains `dec` or
`decrease` (`-1` when none). -/
def decreaseStartIdx (rows : List JsonRow) : ℤ :=
  match rows.findIdx? (fun r =>
      strContains (strLower r.instructions) "dec" ||
      strContains (strLower r.instructions) "decrease") with
  | some i => (i : ℤ)
  | none => -1

/-- `colorAssignment ? colorAssignment.yarnName || colorKey : colorKey`. -/
def colorNameForKey (customizations : PatternCustomizations) (colorKey : String) : String :=
  match customizations.colorAssignments.find? (fun a => a.colorKey = colorKey) with
  | some a => jsOrStr a.yarnName colorKey
  | none => colorKey

/-- The per-difficulty text transform applied inside the interpreter loop
(`simplified` only when the text contains an `x`; `detailed` always). -/
def applyDifficultyText (difficultyLevel : String) (t : String) : String :=
  if difficultyLevel = "simplified" ∧ strContains t "x" then simplifyInstruction t
  else if difficultyLevel = "detailed" then addDetailToInstruction t
  else t

/-- The instruction text the loop builds for row `i` before terminal-row
detection: the raw template text, prefixed with the starting-yarn note on
the very first row and with a color-change note exactly when the resolved
color key differs from the previous row's, then difficulty-transformed. -/
def emitRowText (rows : List JsonRow) (colorZones : List ColorZone)
    (customizations : PatternCustomizations) (difficultyLevel : String)
    (i : Nat) : String :=
  let row := rows.getD i default
  let colorKey := resolveRowColorKey colorZones row
  let instruction1 :=
    if i = 0 then
      "With " ++ colorNameForKey customizations colorKey ++ " yarn: " ++ row.instructions
    else
      if colorKey ≠ resolveRowColorKey colorZones (rows.getD (i - 1) default) then
        "Change to " ++ colorNameForKey customizations colorKey ++ ". " ++ row.instructions
      else row.instructions
  applyDifficultyText difficultyLevel instruction1

/-- Terminal-row detection of the loop: zero stitch count, or fasten-off
vocabulary in the (prefixed, transformed) lowercased instruction text. -/
def emitRowIsFinal (rows : List JsonRow) (colorZones : List ColorZone)
    (customizations : PatternCustomizations) (difficultyLevel : String)
    (i : Nat) : Bool :=
  let row := rows.getD i default
  let t := emitRowText rows colorZones customizations difficultyLevel i
  decide (row.stitchCount = 0) ||
    strContains (strLower t) "cut yarn" ||
    strContains (strLower t) "fasten off" ||
    strContains (strLower t) "pull through remaining"

/-- The scaled (and, on simplified difficulty past index 2, reduced)
stitch count of row `i`. -/
def emitAdjustedCount (rows : List JsonRow) (sizeMultiplier : JQ)
    (difficultyLevel : String) (i : Nat) : ℤ :=
  let adjustedCount0 := jsRound (((rows.getD i default).stitchCount : JQ) * sizeMultiplier)
  if difficultyLevel = "simplified" ∧ i > 2 then max (adjustedCount0 - 2) 1
  else adjustedCount0

/-- The canonical fasten-off replacement text. -/
def fastenOffText : String :=
  "FO. Cut yarn, leaving a ~12-inch tail for sewing. Weave end through remaining stitches and pull tight to close."

/-- One iteration of the interpreter loop.  The loop carries no state
between iterations (the previous color is recomputed from `rows[i-1]` and
the decrease index is precomputed), so each iteration appends the list
below: an optional stuffing reminder followed by the row's entry. -/
def emitRowJs (rows : List JsonRow) (colorZones : List ColorZone)
    (customizations : PatternCustomizations) (sizeMultiplier : JQ)
    (difficultyLevel : String) (partName : String) (i : Nat) :
    List StitchInstruction :=
  let stuffLevel := jsOrStr (stuffingLevel partName) "moderately"
  let row := rows.getD i default
  let rowNum := row.rowNumber
  let adjustedCount := emitAdjustedCount rows sizeMultiplier difficultyLevel i
  let colorKey := resolveRowColorKey colorZones row
  let instruction2 := emitRowText rows colorZones customizations difficultyLevel i
  let reminder : List StitchInstruction :=
    if (i : ℤ) = decreaseStartIdx rows ∧ decreaseStartIdx rows > 0 then
      [{ rowNumber := 0,
         instruction := "--- Insert safety eyes between Rnds " ++
           toString (max 1 (rowNum - 4)) ++ "-" ++ toString (rowNum - 1) ++
           " if applicable. Stuff piece " ++ stuffLevel ++ " before continuing. ---",
         stitchesUsed := [],
         notes := some "Reminder" }]
    else []
  let colorNoteName := colorNameForKey customizations colorKey
  let entry : StitchInstruction :=
    if emitRowIsFinal rows colorZones customizations difficultyLevel i then
      { rowNumber := rowNum,
        instruction := fastenOffText,
        stitchesUsed := [],
        notes := if colorKey ≠ "primary" then some ("Color: " ++ colorNoteName) else none }
    else
      { rowNumber := rowNum,
        instruction :=
          if adjustedCount > 0 then
            "Rnd " ++ toString rowNum ++ ": " ++ instruction2 ++
              " [" ++ toString adjustedCount ++ " sts]"
          else "Rnd " ++ toString rowNum ++ ": " ++ instruction2,
        stitchesUsed := extractStitches instruction2,
        notes := if colorKey ≠ "primary" then some ("Color: " ++ colorNoteName) else none }
  reminder ++ [entry]

/-- Embedding of `generateInstructionsFromJsonRows`: the interpreter loop as
the concatenation of its per-index emissions. -/
def generateInstructionsFromJsonRows (rows : List JsonRow)
    (colorZones : List ColorZone) (customizations : PatternCustomizations)
    (sizeMultiplier : JQ) (difficultyLevel : String) (partName : String) :
    List StitchInstruction :=
  (List.range rows.length).flatMap
    (emitRowJs rows colorZones customizations sizeMultiplier difficultyLevel partName)

-- ===========================================================================
-- Assembly instructions, abbreviations, display helpers, fallback analysis
-- ===========================================================================

/-- Embedding of `generateAssemblyInstructions`. -/
def generateAssemblyInstructions (preset : BreedPreset)
    (analysis : DogAnalysisResult) : List String :=
  if preset.assemblyInstructions.length > 0 then
    preset.assemblyInstructions.map stripLeadingNum ++
      ["Use the long yarn tails to sew each piece. Pin pieces in place before sewing to check positioning.",
       "For a neater finish, use a whip stitch or mattress stitch to join pieces.",
       "Weave in all remaining ends securely and trim."]
  else
    let earType :=
      if analysis.earShape = "pointy" ∨ analysis.earShape = "button" then
        "erect — sew to top of head so they stand up"
      else "floppy — sew to sides of head and let hang down naturally"
    ["Attach safety eyes to head between Rnds 8-10, spaced about 6 stitches apart. Secure with washers on the inside.",
     "Sew snout to front-center of head, positioned below the eyes.",
     "Sew nose to tip of snout.",
     "Sew ears to head — " ++ earType ++ ".",
     "Sew head to body. Pin in place first to ensure it sits straight.",
     "Sew front legs to body, positioned at front corners just below the head join.",
     "Sew back legs to body at back corners — ensure the doll can sit upright.",
     "Sew tail to back of body with a slight curve.",
     "Embroider any additional details: mouth line, eyebrows, or markings using embroidery thread.",
     "Use the long yarn tails to sew each piece. Pin pieces in place before sewing to check positioning.",
     "For a neater finish, use a whip stitch or mattress stitch to join pieces.",
     "Weave in all remaining ends securely and trim."]

/-- Embedding of `getStandardAbbreviations` (insertion order preserved). -/
def getStandardAbbreviations : List (String × String) :=
  [("MR", "magic ring"),
   ("sc", "single crochet"),
   ("inc", "increase (2 sc in same stitch)"),
   ("dec", "invisible decrease (insert hook through front loops of next 2 sts, yarn over, pull through all)"),
   ("hdc", "half double crochet"),
   ("dc", "double crochet"),
   ("tr", "treble crochet"),
   ("slst", "slip stitch"),
   ("ch", "chain"),
   ("st", "stitch"),
   ("sts", "stitches"),
   ("Rnd", "round"),
   ("FO", "fasten off"),
   ("FLO", "front loop only"),
   ("BLO", "back loop only"),
   ("sk", "skip"),
   ("x N", "repeat N times"),
   ("[ ]", "stitch count at end of round")]

/-- Embedding of `formatBreedDisplay`: split on runs of `-`/whitespace and
capitalize each piece. -/
def formatBreedDisplay (breedId : String) : String :=
  String.intercalate " "
    ((jsSplitRuns (fun c => c = '-' || isJsSpace c) breedId).map capFirst)

/-- Embedding of `formatBodyPartName` (`names[name] || name`). -/
def formatBodyPartName (name : String) : String :=
  match name with
  | "head" => "Head" | "body" => "Body" | "frontLeg" => "Front Legs"
  | "backLeg" => "Back Legs" | "ear" => "Ears" | "tail" => "Tail"
  | "snout" => "Snout" | "nose" => "Nose" | "eyePatch" => "Eye Patch"
  | _ => name

/-- Embedding of `generateFallbackBodyPartAnalysis`: the pure, deterministic
default synthesized from the top-level palette and proportions. -/
def generateFallbackBodyPartAnalysis (analysis : DogAnalysisResult) :
    List BodyPartAnalysis :=
  let primary := jsOrStrS analysis.colors.primary "#8B4513"
  let secondary := jsOrStr analysis.colors.secondary primary
  let earShape := jsOrStrS analysis.earShape "floppy"
  let tailType := jsOrStrS analysis.tailType "straight"
  let build :=
    match analysis.bodyProportions with
    | some bp => jsOrStrS bp.buildType "athletic"
    | none => "athletic"
  let snoutLen : JQ :=
    match analysis.bodyProportions with
    | some bp => jsOrQS bp.snoutLength (3/10)
    | none => 3/10
  [{ partName := "head",
     colors := if secondary ≠ primary then [primary, secondary] else [primary],
     primaryColor := primary,
     markings := [],
     shape := if build = "stocky" ∨ build = "massive" then "broad, rounded" else "rounded",
     texture := "smooth",
     relativeSize :=
       match analysis.bodyProportions with
       | some bp => jsOrQS bp.headToBodyRatio (28/100)
       | none => 28/100,
     crochetNotes := "Work in continuous rounds. Stuff firmly for a rounded head shape." },
   { partName := "body",
     colors := if secondary ≠ primary then [primary, secondary] else [primary],
     primaryColor := primary,
     markings := [],
     shape := build,
     texture := "smooth",
     relativeSize := 1,
     crochetNotes := "Create the main body shape. " ++
       (if build = "stocky" then "Use wider increases for a stocky build."
        else if build = "slender" then "Keep a slim profile with fewer increases."
        else "Work standard increases for the body.") },
   { partName := "ears",
     colors := [primary],
     primaryColor := primary,
     markings := [],
     shape := earShape,
     texture := "smooth",
     relativeSize :=
       match analysis.bodyProportions with
       | some bp => jsOrQS bp.earSize (15/100)
       | none => 15/100,
     crochetNotes :=
       if earShape = "pointy" then
         "Create pointed triangular ears. Use pipe cleaners inside to keep them upright."
       else "Create flat, rounded ear pieces. Leave unstuffed for a natural floppy look." },
   { partName := "tail",
     colors := [primary],
     primaryColor := primary,
     markings := [],
     shape := tailType,
     texture := "smooth",
     relativeSize :=
       match analysis.bodyProportions with
       | some bp => jsOrQS bp.tailLength (15/100)
       | none => 15/100,
     crochetNotes := "Shape the tail to match a " ++ tailType ++ " style. Stuff lightly." },
   { partName := "snout",
     colors := [primary],
     primaryColor := primary,
     markings := [],
     shape := if qltb snoutLen (25/100) then "short, flat" else "medium",
     texture := "smooth",
     relativeSize := snoutLen,
     crochetNotes :=
       if qltb snoutLen (25/100) then "Very short snout — almost flush with the face."
       else "Attach centered on the lower half of the head." }]

-- ===========================================================================
-- Pattern sections (`generatePatternSections`)
-- ===========================================================================

/-- Loop body of `generatePatternSections`: one body part, threading the
accumulated section list and total time. -/
def sectionStep (preset : BreedPreset) (analysis : DogAnalysisResult)
    (customizations : PatternCustomizations)
    (st : List PatternSection × JQ) (partName : String) :
    List PatternSection × JQ :=
  match preset.bodyParts partName with
  | none => st
  | some bodyPart =>
    if customizations.toggledFeatures partName = some false then st
    else
      let sizeAdjustment := jsOrQS customizations.sizeMultiplier 1
      let proportionAdjustment := jsOrQ (customizations.proportionAdjustments partName) 1
      let combinedMultiplier := sizeAdjustment * proportionAdjustment
      let instructions := generateInstructionsFromJsonRows bodyPart.rows
        (bodyPart.colorZones.getD []) customizations combinedMultiplier
        customizations.difficultyLevel partName
      let rowCount := (bodyPart.rows.length : JQ)
      let quantity := jsOrIntS bodyPart.quantity 1
      let estimatedTime := qmax (3/10) (rowCount * 2 / 60 * combinedMultiplier)
      let assemblyNotesText :=
        match bodyPart.assemblyNotes with
        | .arr l => String.intercalate " " l
        | .str s => s
        | .undef => ""
      let stuffLevel := jsOrStr (stuffingLevel partName) "moderately"
      let startingColorName := getBodyPartColorName partName analysis customizations
      let aiPartName := jsOrStr (presetToAiPart partName) partName
      let aiBp := (analysis.bodyPartAnalysis.getD []).find?
        (fun b => b.partName = aiPartName || b.partName = partName)
      let aiCrochetNotes := match aiBp with | some b => b.crochetNotes | none => ""
      let hookSize := jsOrStr customizations.hookSizeOverride preset.hookSize
      let notesParts := ["With " ++ startingColorName ++ " yarn, " ++ hookSize ++ " hook."]
      let notesParts := if aiCrochetNotes ≠ "" then notesParts ++ [aiCrochetNotes] else notesParts
      let notesParts := notesParts ++ ["Stuff " ++ stuffLevel ++ "."]
      let notesParts :=
        if assemblyNotesText ≠ "" then notesParts ++ [assemblyNotesText] else notesParts
      let notesWithStuffing := String.intercalate " " notesParts
      let name0 := formatBodyPartName partName
      let sec : PatternSection :=
        { name := if quantity > 1 then name0 ++ " (make " ++ toString quantity ++ ")" else name0,
          bodyParts := [partName],
          instructions := instructions,
          notes := some notesWithStuffing,
          estimatedTime := estimatedTime,
          difficultyNotes :=
            match bodyPart.assemblyNotes with
            | .arr l => l.head?
            | .str s => some s
            | .undef => none }
      (st.1 ++ [sec], st.2 + estimatedTime * (quantity : JQ))

/-- Embedding of `generatePatternSections`. -/
def generatePatternSections (preset : BreedPreset) (analysis : DogAnalysisResult)
    (customizations : PatternCustomizations) (sizeKey : String) (now : Nat) :
    GeneratedPattern :=
  let (sections, totalTime) :=
    bodyPartOrder.foldl (sectionStep preset analysis customizations) ([], 0)
  let displayBreed := formatBreedDisplay analysis.detectedBreed
  let finishedHeight := jsOrStr (heightBySize sizeKey) "~8 inches (20 cm)"
  let patternNotes := String.intercalate "\n"
    ["Work in continuous spiral rounds unless otherwise noted. Do not join rounds with a slip stitch.",
     "Use a stitch marker to mark the first stitch of each round and move it up as you go.",
     "Gauge is not critical for amigurumi. Your stitches should be tight enough that no stuffing shows through. If stuffing is visible, try a smaller hook.",
     "Finished size: " ++ finishedHeight ++ " tall (approximate).",
     "Stuff each piece as you go — it is much harder to stuff after closing.",
     "Leave a long yarn tail (~12 inches) when fastening off each piece for sewing during assembly."]
  { title := displayBreed ++ " Amigurumi Pattern",
    description := "Custom " ++ displayBreed ++ " amigurumi crochet doll. Finished size: " ++
      finishedHeight ++ ". Skill level: " ++ preset.skillLevel ++
      ". Estimated time: " ++ toString (jsRound totalTime) ++ " hours.",
    sections := sections,
    abbreviations := getStandardAbbreviations,
    assemblyInstructions := generateAssemblyInstructions preset analysis,
    skillLevel := preset.skillLevel,
    estimatedTotalTime := ((jsRound (totalTime * 10) : ℤ) : JQ) / 10,
    notes := patternNotes,
    generatedAt := now }

-- ===========================================================================
-- Materials list (`generateMaterialsList`)
-- ===========================================================================

/-- Per-color yardage accumulator of `generateMaterialsList`: distribute
each enabled part's base yardage over its color zones (fraction
`zoneRows / totalNonTerminalRows`), else attribute it all to `primary`.
The JS object is modelled as a total function defaulting to `0`, which is
indistinguishable from the source's `|| 0` reads. -/
def materialsYardagePerColor (preset : BreedPreset)
    (customizations : PatternCustomizations) (yardageTable : String → Option JQ) :
    String → JQ :=
  bodyPartOrder.foldl (fun acc partName =>
    match preset.bodyParts partName with
    | none => acc
    | some bodyPartData =>
      if customizations.toggledFeatures partName = some false then acc
      else
        let baseYardage := jsOrQ (yardageTable partName) 10
        let quantity := jsOrIntS bodyPartData.quantity 1
        let totalPartYardage := baseYardage * (quantity : JQ)
        match bodyPartData.colorZones with
        | some zones =>
          if zones.length > 0 then
            let totalRows :=
              ((bodyPartData.rows.filter (fun r => r.stitchCount > 0)).length : JQ)
            zones.foldl (fun acc2 zone =>
              let zoneRows := min zone.endRow (bodyPartData.rows.length : ℤ) - zone.startRow + 1
              let fraction := if qltb 0 totalRows then (zoneRows : JQ) / totalRows else 1
              let colorYardage := totalPartYardage * fraction
              fun k => if k = zone.colorKey then acc2 k + colorYardage else acc2 k) acc
          else fun k => if k = "primary" then acc k + totalPartYardage else acc k
        | none => fun k => if k = "primary" then acc k + totalPartYardage else acc k)
    (fun _ => 0)

/-- Table selection `YARDAGE_BY_SIZE[sizeKey] || YARDAGE_BY_SIZE.medium`
of `generateMaterialsList`.  The 15% waste buffer `* 1.15` below is
modelled exactly as `* 23/20`.  (The source also fills a `partColorMap` of
zone coverage fractions that it never reads; that dead local state is
omitted.) -/
def materialsYardageTableFor (sizeKey : String) : String → Option JQ :=
  match yardageBySize sizeKey with
  | some t => t
  | none => yardageMedium

/-- Embedding of `generateMaterialsList` (continued doc above). -/
def generateMaterialsList (preset : BreedPreset)
    (customizations : PatternCustomizations) (sizeKey : String) : PatternMaterials :=
  let yardagePerColor :=
    materialsYardagePerColor preset customizations (materialsYardageTableFor sizeKey)
  let yarns := customizations.colorAssignments.map (fun assignment =>
    let yardage0 := yardagePerColor assignment.colorKey
    let yardage1 :=
      if qeqb yardage0 0 then (if assignment.colorKey = "nose" then 3 else 5) else yardage0
    let yardage2 := jsCeil (yardage1 * (115/100) + 3)
    ({ name := jsOrStr assignment.yarnName assignment.colorKey,
       colorName := assignment.colorKey,
       hexCode := assignment.hexCode,
       yardage := max 3 yardage2,
       weight := preset.yarnWeight } : YarnInfo))
  let totalYardage := (yarns.map (fun y => y.yardage)).sum
  let stuffingAmount := jsOrQ (stuffingBySize sizeKey) 4
  let safetyEyeSize := jsOrStr (safetyEyesBySize sizeKey) "9-12mm"
  let needsPipeCleaners :=
    preset.defaultEarShape = "pointy" ∨ preset.defaultEarShape = "button"
  let hookSize := jsOrStr customizations.hookSizeOverride preset.hookSize
  let notions : List Notion :=
    [{ name := "Safety eyes, " ++ safetyEyeSize, quantity := 2, unit := "pieces" },
     { name := "Safety eye washers/backings", quantity := 2, unit := "pieces" },
     { name := "Stitch markers", quantity := 2, unit := "pieces" },
     { name := "Yarn needle (tapestry needle)", quantity := 1, unit := "piece" }]
  let notions :=
    if needsPipeCleaners then
      notions ++ [{ name := "Pipe cleaners (for ear support)", quantity := 2, unit := "pieces" }]
    else notions
  { yarns := yarns,
    hookSize := hookSize,
    hookSizeInfo := hookSize ++
      " crochet hook (use 1-2 sizes smaller than yarn label recommends for tight amigurumi fabric)",
    notions := notions,
    stuffingAmount := ((jsRound (stuffingAmount * 10) : ℤ) : JQ) / 10,
    stuffingType := "Polyester fiberfill",
    additionalSupplies :=
      ["Embroidery thread or floss (black — for mouth, eyebrows, details)",
       "Scissors",
       "Pins (for positioning pieces before sewing)",
       "Row counter or pen & paper (to track rounds)"],
    totalYardageNeeded := totalYardage }

-- ===========================================================================
-- Heap of shared mutable objects
-- ===========================================================================

/-- The mutable objects the embedded code writes through shared references,
at object granularity: assigning a field of such an object replaces the
whole cell value.  References are list indexes; allocation appends. -/
structure Heap where
  analyses : List DogAnalysisResult
  custs : List PatternCustomizations
  gens : List GeneratedPattern
  editors : List PatternEditorState

/-- Empty analysis used as the out-of-range default of `getD` (never hit by
well-formed references). -/
def emptyAnalysis : DogAnalysisResult :=
  { detectedBreed := "", colors := { primary := "" }, earShape := "", tailType := "" }

/-- Empty customizations, the `getD` default. -/
def emptyCustomizations : PatternCustomizations :=
  { colorAssignments := [], toggledFeatures := fun _ => none,
    proportionAdjustments := fun _ => none, difficultyLevel := "standard",
    sizeMultiplier := 1 }

/-- Empty generated pattern, the `getD` default. -/
def emptyGenerated : GeneratedPattern :=
  { title := "", description := "", sections := [], abbreviations := [],
    assemblyInstructions := [], skillLevel := "", estimatedTotalTime := 0,
    notes := "", generatedAt := 0 }

/-- Empty editor state, the `getD` default. -/
def emptyEditor : PatternEditorState :=
  { activeTab := "", expandedSections := [], hasUnsavedChanges := false,
    lastEditedAt := 0, editHistory := [] }

/-- Read an analysis cell. -/
def Heap.getAnalysis (h : Heap) (r : Nat) : DogAnalysisResult :=
  h.analyses.getD r emptyAnalysis

/-- Read a customizations cell. -/
def Heap.getCust (h : Heap) (r : Nat) : PatternCustomizations :=
  h.custs.getD r emptyCustomizations

/-- Read a generated-pattern cell. -/
def Heap.getGen (h : Heap) (r : Nat) : GeneratedPattern :=
  h.gens.getD r emptyGenerated

/-- Read an editor-state cell. -/
def Heap.getEditor (h : Heap) (r : Nat) : PatternEditorState :=
  h.editors.getD r emptyEditor

/-- Write (a function of the old value) through an analysis reference. -/
def Heap.setAnalysis (h : Heap) (r : Nat) (f : DogAnalysisResult → DogAnalysisResult) : Heap :=
  { h with analyses := h.analyses.set r (f (h.getAnalysis r)) }

/-- Write through a customizations reference. -/
def Heap.setCust (h : Heap) (r : Nat) (f : PatternCustomizations → PatternCustomizations) : Heap :=
  { h with custs := h.custs.set r (f (h.getCust r)) }

/-- Write through a generated-pattern reference. -/
def Heap.setGen (h : Heap) (r : Nat) (f : GeneratedPattern → GeneratedPattern) : Heap :=
  { h with gens := h.gens.set r (f (h.getGen r)) }

/-- Write through an editor-state reference. -/
def Heap.setEditor (h : Heap) (r : Nat) (f : PatternEditorState → PatternEditorState) : Heap :=
  { h with editors := h.editors.set r (f (h.getEditor r)) }

/-- Allocate a fresh customizations object. -/
def Heap.allocCust (h : Heap) (v : PatternCustomizations) : Heap × Nat :=
  ({ h with custs := h.custs ++ [v] }, h.custs.length)

/-- Allocate a fresh generated pattern object. -/
def Heap.allocGen (h : Heap) (v : GeneratedPattern) : Heap × Nat :=
  ({ h with gens := h.gens ++ [v] }, h.gens.length)

/-- Allocate a fresh editor state object. -/
def Heap.allocEditor (h : Heap) (v : PatternEditorState) : Heap × Nat :=
  ({ h with editors := h.editors ++ [v] }, h.editors.length)

-- ===========================================================================
-- Main generator (`generatePattern`)
-- ===========================================================================

/-- Merge of the generator defaults with the caller's partial
customizations (`{ colorAssignments: [], ..., ...customizations }`). -/
def mergeCustomizationDefaults (pc : PartialCustomizations) : PatternCustomizations :=
  { colorAssignments := pc.colorAssignments.getD [],
    toggledFeatures := pc.toggledFeatures.getD (fun _ => none),
    proportionAdjustments := pc.proportionAdjustments.getD (fun _ => none),
    difficultyLevel := pc.difficultyLevel.getD "standard",
    hookSizeOverride := pc.hookSizeOverride,
    yarnWeightOverride := pc.yarnWeightOverride,
    sizeMultiplier := pc.sizeMultiplier.getD 1,
    notes := pc.notes }

/-- The defaults-then-spread merge plus the empty-palette seeding performed
at the top of the generator's `generatePattern`. -/
def mergedCustomizationsOf (customizations : Option PartialCustomizations)
    (analysis : DogAnalysisResult) : PatternCustomizations :=
  let merged0 := mergeCustomizationDefaults (customizations.getD {})
  if merged0.colorAssignments.length = 0 then
    { merged0 with colorAssignments := buildColorAssignments analysis }
  else merged0

/-- Embedding of the generator's `generatePattern(analysis, preset,
customizations?)`.  The analysis argument is a heap reference because the
function writes a fallback `bodyPartAnalysis` onto it when it has none.
`now` stands for `Date.now()` / `new Date()` and `rand` for the random id
suffix. -/
def generatePattern (h : Heap) (analysisRef : Nat) (preset : BreedPreset)
    (customizations : Option PartialCustomizations) (now : Nat) (rand : String) :
    Heap × CustomPattern :=
  let analysis := h.getAnalysis analysisRef
  let merged := mergedCustomizationsOf customizations analysis
  let sizeKey := getSizeKey merged.sizeMultiplier
  let generated := generatePatternSections preset analysis merged sizeKey now
  let materials := generateMaterialsList preset merged sizeKey
  let h1 :=
    if (analysis.bodyPartAnalysis.getD []).isEmpty then
      h.setAnalysis analysisRef (fun a =>
        { a with bodyPartAnalysis := some (generateFallbackBodyPartAnalysis a) })
    else h
  let displayBreed := formatBreedDisplay analysis.detectedBreed
  let (h2, custRef) := h1.allocCust merged
  let (h3, genRef) := h2.allocGen generated
  (h3,
   { id := "pattern-" ++ toString now ++ "-" ++ rand,
     userId := "current-user",
     name := displayBreed ++ " Amigurumi",
     description := "Custom " ++ displayBreed ++ " crochet pattern generated from photo",
     dogPhotoUrl := analysis.photoUrl,
     breedId := analysis.detectedBreed,
     analysisResult := analysisRef,
     customizations := custRef,
     generatedPattern := genRef,
     materials := materials,
     exportFormats := ["pdf", "txt", "markdown"],
     createdAt := now,
     updatedAt := now,
     visibility := "private" })

-- ===========================================================================
-- Customizer
-- ===========================================================================

/-- Run-length pass of `simplifyPattern` over one section's instruction
list: merge runs of byte-identical instruction text, annotating a merged
run's first entry with `[repeat for N rows]`. -/
def annotRepeat (last : StitchInstruction) (repeatCount : Nat) : StitchInstruction :=
  if repeatCount > 1 then
    { last with instruction :=
        last.instruction ++ " [repeat for " ++ toString repeatCount ++ " rows]" }
  else last

/-- The merge loop (`lastInstruction`/`repeatCount` state machine). -/
def rleMerge : Option (StitchInstruction × Nat) → List StitchInstruction →
    List StitchInstruction
  | none, [] => []
  | some (last, rc), [] => [annotRepeat last rc]
  | none, x :: xs => rleMerge (some (x, 1)) xs
  | some (last, rc), x :: xs =>
    if last.instruction = x.instruction then rleMerge (some (last, rc + 1)) xs
    else annotRepeat last rc :: rleMerge (some (x, 1)) xs

/-- Embedding of `simplifyPattern` (acting on the generated pattern value
the shared reference points at). -/
def simplifyPatternGen (g : GeneratedPattern) : GeneratedPattern :=
  { g with sections := g.sections.map (fun s =>
      { s with instructions := rleMerge none s.instructions }) }

/-- Embedding of `addDetailToPattern`. -/
def addDetailToPatternGen (g : GeneratedPattern) : GeneratedPattern :=
  { g with sections := g.sections.map (fun s =>
      { s with instructions := s.instructions.map (fun inst =>
          let t := inst.instruction
          let t := if strContains t "inc" then
              t ++ " - 2 stitches in the same stitch for smooth increases" else t
          let t := if strContains t "dec" then
              t ++ " - insert through 2 stitches and pull yarn through both for smooth decreases" else t
          let t := if strContains t "Magic ring" then
              t ++ " - this creates a tight center, perfect for amigurumi" else t
          { inst with instruction := t }) }) }

/-- Embedding of `generatePatternData`: look up the preset (throwing when
missing, before any write) and re-run the generator on the pattern's
analysis and current customizations. -/
def generatePatternData (h : Heap) (pattern : CustomPattern)
    (getPreset : String → Option BreedPreset) (now : Nat) :
    Heap × Except String (Nat × PatternMaterials) :=
  match getPreset pattern.breedId with
  | none => (h, .error ("Preset not found for breed: " ++ pattern.breedId))
  | some preset =>
    let custVal := h.getCust pattern.customizations
    let (h', full) :=
      generatePattern h pattern.analysisResult preset (some (toPartial custVal)) now ""
    (h', .ok (full.generatedPattern, full.materials))

/-- Embedding of `regeneratePattern`: regenerate, then update the pattern's
`generatedPattern`/`materials` fields and its editor state.  On the error
path the heap is returned as of the throw point. -/
def regeneratePattern (h : Heap) (pattern : CustomPattern)
    (getPreset : String → Option BreedPreset) (now : Nat) :
    Heap × Except String CustomPattern :=
  match generatePatternData h pattern getPreset now with
  | (h', .error e) => (h', .error e)
  | (h', .ok (genRef, materials)) =>
    let pattern := { pattern with generatedPattern := genRef, materials := materials }
    match pattern.editorState with
    | some r =>
      let h'' := h'.setEditor r (fun e =>
        { e with hasUnsavedChanges := true, lastEditedAt := now })
      (h'', .ok pattern)
    | none =>
      let (h'', r) := h'.allocEditor
        { activeTab := "overview", expandedSections := [],
          hasUnsavedChanges := true, lastEditedAt := now, editHistory := [] }
      let h3 := h''.setEditor r (fun e =>
        { e with hasUnsavedChanges := true, lastEditedAt := now })
      (h3, .ok { pattern with editorState := some r })

/-- Embedding of `updateColors`: shallow-copy the pattern, write the new
assignments through the shared customizations reference, stamp
`updatedAt`, and regenerate. -/
def updateColors (h : Heap) (pattern : CustomPattern)
    (colorAssignments : List ColorAssignment)
    (getPreset : String → Option BreedPreset) (now : Nat) :
    Heap × Except String CustomPattern :=
  let updated := pattern
  let h1 := h.setCust updated.customizations
    (fun c => { c with colorAssignments := colorAssignments })
  let updated := { updated with updatedAt := now }
  regeneratePattern h1 updated getPreset now

/-- Embedding of `toggleFeature`. -/
def toggleFeature (h : Heap) (pattern : CustomPattern) (featureName : String)
    (enabled : Bool) (getPreset : String → Option BreedPreset) (now : Nat) :
    Heap × Except String CustomPattern :=
  let updated := pattern
  let h1 := h.setCust updated.customizations (fun c =>
    { c with toggledFeatures := fun k =>
        if k = featureName then some enabled else c.toggledFeatures k })
  let updated := { updated with updatedAt := now }
  regeneratePattern h1 updated getPreset now

/-- Embedding of `adjustProportions`: clamp the modifier to `[0.5, 2.0]`
and store it for the body part. -/
def adjustProportions (h : Heap) (pattern : CustomPattern) (bodyPart : String)
    (modifier : JQ) (getPreset : String → Option BreedPreset) (now : Nat) :
    Heap × Except String CustomPattern :=
  let updated := pattern
  let clampedModifier := qmax (1/2) (qmin 2 modifier)
  let h1 := h.setCust updated.customizations (fun c =>
    { c with proportionAdjustments := fun k =>
        if k = bodyPart then some clampedModifier else c.proportionAdjustments k })
  let updated := { updated with updatedAt := now }
  regeneratePattern h1 updated getPreset now

/-- Embedding of `setDifficulty`: store the level, run the post-compile
transform on the (shared) generated pattern, then regenerate. -/
def setDifficulty (h : Heap) (pattern : CustomPattern) (level : String)
    (getPreset : String → Option BreedPreset) (now : Nat) :
    Heap × Except String CustomPattern :=
  let updated := pattern
  let h1 := h.setCust updated.customizations (fun c => { c with difficultyLevel := level })
  let updated := { updated with updatedAt := now }
  let h2 :=
    if level = "simplified" then h1.setGen updated.generatedPattern simplifyPatternGen
    else if level = "detailed" then h1.setGen updated.generatedPattern addDetailToPatternGen
    else h1
  regeneratePattern h2 updated getPreset now

/-- The field-by-field merge `applyCustomizations` performs on the shared
customizations object (truthiness-guarded; no clamping anywhere). -/
def applyCustMerge (customizations : PartialCustomizations)
    (c : PatternCustomizations) : PatternCustomizations :=
  (fun c =>
    let c := match customizations.colorAssignments with
      | some l => { c with colorAssignments := l }
      | none => c
    let c := match customizations.toggledFeatures with
      | some tf =>
        let mergedTf := fun k => (tf k).orElse (fun _ => c.toggledFeatures k)
        { c with toggledFeatures := mergedTf }
      | none => c
    let c := match customizations.proportionAdjustments with
      | some pa =>
        let mergedPa := fun k => (pa k).orElse (fun _ => c.proportionAdjustments k)
        { c with proportionAdjustments := mergedPa }
      | none => c
    let c := match customizations.difficultyLevel with
      | some s => if s = "" then c else { c with difficultyLevel := s }
      | none => c
    let c := match customizations.hookSizeOverride with
      | some s => if s = "" then c else { c with hookSizeOverride := some s }
      | none => c
    let c := match customizations.yarnWeightOverride with
      | some s => if s = "" then c else { c with yarnWeightOverride := some s }
      | none => c
    let c := match customizations.sizeMultiplier with
      | some q => if qeqb q 0 then c else { c with sizeMultiplier := q }
      | none => c
    let c := match customizations.notes with
      | some s => if s = "" then c else { c with notes := some s }
      | none => c
    c) c

/-- Embedding of `applyCustomizations`: merge through the shared
customizations reference, stamp `updatedAt`, and regenerate. -/
def applyCustomizations (h : Heap) (pattern : CustomPattern)
    (customizations : PartialCustomizations)
    (getPreset : String → Option BreedPreset) (now : Nat) :
    Heap × Except String CustomPattern :=
  let updated := pattern
  let h1 := h.setCust updated.customizations (applyCustMerge customizations)
  let updated := { updated with updatedAt := now }
  regeneratePattern h1 updated getPreset now

-- ===========================================================================
-- Document paginator (PDF exporter): page constants, cursor state,
-- `newPage` and `ensureSpace`
-- ===========================================================================

/-- Page height in mm (A4). -/
def PAGE_H : ℚ := 297

/-- Top margin. -/
def MT : ℚ := 18

/-- Bottom margin. -/
def MB : ℚ := 20

/-- Header band height. -/
def HEADER_H : ℚ := 14

/-- Top content boundary: `MT + HEADER_H`. -/
def CONTENT_TOP : ℚ := MT + HEADER_H

/-- Bottom content boundary: `PAGE_H - MB`. -/
def CONTENT_BOTTOM : ℚ := PAGE_H - MB

/-- Draw operations relevant to pagination: the footer of a page, a page
break of the underlying document, and a header carrying the running title.
Text/box drawing inside content blocks is not modelled. -/
inductive PdfOp where
  | footer (page : ℤ)
  | addPage
  | header (title : String)
deriving Repr, DecidableEq

/-- Paginator cursor state: the `jsPDF` document is abstracted to the trace
of emitted pagination operations. -/
structure PagState where
  ops : List PdfOp
  y : ℚ
  page : ℤ
  title : String
deriving Repr, DecidableEq

/-- `addFooter`: draw the current page's footer. -/
def addFooter (s : PagState) : PagState :=
  { s with ops := s.ops ++ [PdfOp.footer s.page] }

/-- `addHeader`: draw the running header. -/
def addHeader (s : PagState) : PagState :=
  { s with ops := s.ops ++ [PdfOp.header s.title] }

/-- Embedding of `newPage`: footer, `doc.addPage()`, increment the page
counter, reset the cursor to the top content boundary, header. -/
def newPage (s : PagState) : PagState :=
  let s := addFooter s
  let s := { s with ops := s.ops ++ [PdfOp.addPage] }
  let s := { s with page := s.page + 1 }
  let s := { s with y := CONTENT_TOP }
  addHeader s

/-- Embedding of `ensureSpace`: start a new page exactly when `y + h` would
cross the bottom content boundary, otherwise do nothing. -/
def ensureSpace (s : PagState) (h : ℚ) : PagState :=
  if s.y + h > CONTENT_BOTTOM then newPage s else s

/-- Decidable equality for `Except`, used by concrete counterexamples. -/
instance {e a : Type _} [DecidableEq e] [DecidableEq a] : DecidableEq (Except e a) :=
  fun x y =>
    match x, y with
    | .error u, .error v =>
      if h : u = v then isTrue (by rw [h]) else isFalse (by simp [h])
    | .ok u, .ok v =>
      if h : u = v then isTrue (by rw [h]) else isFalse (by simp [h])
    | .error _, .ok _ => isFalse (by simp)
    | .ok _, .error _ => isFalse (by simp)

-- ===========================================================================
-- Concrete fixtures used by counterexamples and witnesses
-- ===========================================================================

/-- A two-row head template; the second row is terminal (`stitchCount = 0`)
and carries an explicit non-primary color key. -/
def tinyHeadRows : List JsonRow :=
  [{ rowNumber := 1, instructions := "Sc 6 in Magic ring", stitchCount := 6 },
   { rowNumber := 2, instructions := "Sc 6", stitchCount := 0, colorKey := some "secondary" }]

/-- The head body part of the tiny test preset. -/
def tinyHeadPart : JsonBodyPart :=
  { name := "head", quantity := 1, rows := tinyHeadRows }

/-- A one-part breed preset used as a concrete `getPreset` result. -/
def tinyPreset : BreedPreset :=
  { breedId := "labrador",
    bodyParts := fun p => if p = "head" then some tinyHeadPart else none,
    assemblyInstructions := [],
    skillLevel := "beginner",
    hookSize := "3.5mm",
    yarnWeight := "worsted",
    defaultEarShape := "floppy" }

/-- Preset lookup table holding only the tiny labrador preset. -/
def getPresetTiny : String → Option BreedPreset :=
  fun b => if b = "labrador" then some tinyPreset else none

/-- Preset lookup table with no presets at all. -/
def getPresetNone : String → Option BreedPreset := fun _ => none

/-- An analysis with no `bodyPartAnalysis`. -/
def analysisNoBpa : DogAnalysisResult :=
  { detectedBreed := "labrador",
    colors := { primary := "#8B4513" },
    earShape := "floppy",
    tailType := "straight" }

/-- Base customizations for the fixture pattern. -/
def baseCust : PatternCustomizations :=
  { colorAssignments :=
      [{ colorKey := "primary", hexCode := "#8B4513", yarnName := some "Brown" }],
    toggledFeatures := fun _ => none,
    proportionAdjustments := fun _ => none,
    difficultyLevel := "standard",
    sizeMultiplier := 1 }

/-- Instruction `A` of the run-length fixture. -/
def instrA : StitchInstruction :=
  { rowNumber := 1, instruction := "Sc 6", stitchesUsed := ["sc"] }

/-- Instruction `B` of the run-length fixture. -/
def instrB : StitchInstruction :=
  { rowNumber := 4, instruction := "Inc 6", stitchesUsed := ["inc"] }

/-- A generated pattern whose single section has instructions `[A, A, A, B]`. -/
def genWithRuns : GeneratedPattern :=
  { emptyGenerated with sections :=
      [{ name := "Head", bodyParts := ["head"],
         instructions := [instrA, instrA, instrA, instrB],
         estimatedTime := 1 }] }

/-- Placeholder materials of the fixture pattern. -/
def placeholderMaterials : PatternMaterials :=
  { yarns := [], hookSize := "3.5mm", hookSizeInfo := "", notions := [],
    stuffingAmount := 0, stuffingType := "", additionalSupplies := [],
    totalYardageNeeded := 0 }

/-- The fixture pattern: its references point at index `0` of each store. -/
def basePattern : CustomPattern :=
  { id := "p1", userId := "current-user", name := "Labrador Amigurumi",
    dogPhotoUrl := "", breedId := "labrador",
    analysisResult := 0, customizations := 0, generatedPattern := 0,
    materials := placeholderMaterials, editorState := none,
    exportFormats := ["pdf", "txt", "markdown"],
    createdAt := 0, updatedAt := 0, visibility := "private" }

/-- The fixture heap. -/
def baseHeap : Heap :=
  { analyses := [analysisNoBpa], custs := [baseCust], gens := [genWithRuns],
    editors := [] }

-- ===========================================================================
-- Proof-support lemmas: list access and heap-operation projections
-- ===========================================================================

theorem getD_set_self' {α : Type _} (l : List α) (i : Nat) (a d : α)
    (h : i < l.length) : (l.set i a).getD i d = a := by
  rw [List.getD_eq_getElem _ _ (by simpa using h)]
  exact List.getElem_set_self _

theorem getD_concat_self {α : Type _} (l : List α) (a d : α) :
    (l ++ [a]).getD l.length d = a := by
  rw [List.getD_append_right _ _ _ _ (le_refl _)]
  simp

@[simp] theorem setCust_analyses (h : Heap) (r : Nat) (f) :
    (h.setCust r f).analyses = h.analyses := rfl

@[simp] theorem setCust_gens (h : Heap) (r : Nat) (f) :
    (h.setCust r f).gens = h.gens := rfl

@[simp] theorem setCust_editors (h : Heap) (r : Nat) (f) :
    (h.setCust r f).editors = h.editors := rfl

@[simp] theorem setCust_custs (h : Heap) (r : Nat) (f) :
    (h.setCust r f).custs = h.custs.set r (f (h.getCust r)) := rfl

@[simp] theorem setGen_custs (h : Heap) (r : Nat) (f) :
    (h.setGen r f).custs = h.custs := rfl

@[simp] theorem setGen_analyses (h : Heap) (r : Nat) (f) :
    (h.setGen r f).analyses = h.analyses := rfl

@[simp] theorem setGen_gens (h : Heap) (r : Nat) (f) :
    (h.setGen r f).gens = h.gens.set r (f (h.getGen r)) := rfl

@[simp] theorem setAnalysis_custs (h : Heap) (r : Nat) (f) :
    (h.setAnalysis r f).custs = h.custs := rfl

@[simp] theorem setAnalysis_gens (h : Heap) (r : Nat) (f) :
    (h.setAnalysis r f).gens = h.gens := rfl

@[simp] theorem setAnalysis_editors (h : Heap) (r : Nat) (f) :
    (h.setAnalysis r f).editors = h.editors := rfl

@[simp] theorem setAnalysis_analyses (h : Heap) (r : Nat) (f) :
    (h.setAnalysis r f).analyses = h.analyses.set r (f (h.getAnalysis r)) := rfl

@[simp] theorem setEditor_custs (h : Heap) (r : Nat) (f) :
    (h.setEditor r f).custs = h.custs := rfl

@[simp] theorem setEditor_gens (h : Heap) (r : Nat) (f) :
    (h.setEditor r f).gens = h.gens := rfl

@[simp] theorem setEditor_analyses (h : Heap) (r : Nat) (f) :
    (h.setEditor r f).analyses = h.analyses := rfl

@[simp] theorem allocCust_fst_custs (h : Heap) (v) :
    (h.allocCust v).1.custs = h.custs ++ [v] := rfl

@[simp] theorem allocCust_fst_analyses (h : Heap) (v) :
    (h.allocCust v).1.analyses = h.analyses := rfl

@[simp] theorem allocCust_fst_gens (h : Heap) (v) :
    (h.allocCust v).1.gens = h.gens := rfl

@[simp] theorem allocCust_fst_editors (h : Heap) (v) :
    (h.allocCust v).1.editors = h.editors := rfl

@[simp] theorem allocGen_fst_gens (h : Heap) (v) :
    (h.allocGen v).1.gens = h.gens ++ [v] := rfl

@[simp] theorem allocGen_fst_custs (h : Heap) (v) :
    (h.allocGen v).1.custs = h.custs := rfl

@[simp] theorem allocGen_fst_analyses (h : Heap) (v) :
    (h.allocGen v).1.analyses = h.analyses := rfl

@[simp] theorem allocGen_fst_editors (h : Heap) (v) :
    (h.allocGen v).1.editors = h.editors := rfl

@[simp] theorem allocEditor_fst_custs (h : Heap) (v) :
    (h.allocEditor v).1.custs = h.custs := rfl

@[simp] theorem allocEditor_fst_gens (h : Heap) (v) :
    (h.allocEditor v).1.gens = h.gens := rfl

@[simp] theorem allocEditor_fst_analyses (h : Heap) (v) :
    (h.allocEditor v).1.analyses = h.analyses := rfl

-- ===========================================================================
-- Proof-support lemmas: characterizing `generatePattern`'s heap effect
-- ===========================================================================

/-- The customizations value `generatePattern` computes and allocates. -/
def mergedOf (h : Heap) (r : Nat) (pc : Option PartialCustomizations) :
    PatternCustomizations :=
  mergedCustomizationsOf pc (h.getAnalysis r)

/-- The generated-pattern value `generatePattern` computes and allocates. -/
def genValueOf (h : Heap) (r : Nat) (preset : BreedPreset)
    (pc : Option PartialCustomizations) (now : Nat) : GeneratedPattern :=
  generatePatternSections preset (h.getAnalysis r) (mergedOf h r pc)
    (getSizeKey (mergedOf h r pc).sizeMultiplier) now

/-- The materials value `generatePattern` computes. -/
def matValueOf (h : Heap) (r : Nat) (preset : BreedPreset)
    (pc : Option PartialCustomizations) : PatternMaterials :=
  generateMaterialsList preset (mergedOf h r pc)
    (getSizeKey (mergedOf h r pc).sizeMultiplier)

theorem generatePattern_custs (h : Heap) (r : Nat) (preset : BreedPreset)
    (pc : Option PartialCustomizations) (now : Nat) (rand : String) :
    (generatePattern h r preset pc now rand).1.custs = h.custs ++ [mergedOf h r pc] := by
  by_cases hc : ((h.getAnalysis r).bodyPartAnalysis.getD []).isEmpty = true <;>
    simp [generatePattern, mergedOf, hc]

theorem generatePattern_gens (h : Heap) (r : Nat) (preset : BreedPreset)
    (pc : Option PartialCustomizations) (now : Nat) (rand : String) :
    (generatePattern h r preset pc now rand).1.gens
      = h.gens ++ [genValueOf h r preset pc now] := by
  by_cases hc : ((h.getAnalysis r).bodyPartAnalysis.getD []).isEmpty = true <;>
    simp [generatePattern, genValueOf, mergedOf, hc]

theorem generatePattern_editors (h : Heap) (r : Nat) (preset : BreedPreset)
    (pc : Option PartialCustomizations) (now : Nat) (rand : String) :
    (generatePattern h r preset pc now rand).1.editors = h.editors := by
  by_cases hc : ((h.getAnalysis r).bodyPartAnalysis.getD []).isEmpty = true <;>
    simp [generatePattern, hc]

theorem generatePattern_analyses_of_nonempty (h : Heap) (r : Nat)
    (preset : BreedPreset) (pc : Option PartialCustomizations) (now : Nat)
    (rand : String) (l : List BodyPartAnalysis)
    (hl : (h.getAnalysis r).bodyPartAnalysis = some l) (hne : l ≠ []) :
    (generatePattern h r preset pc now rand).1.analyses = h.analyses := by
  simp [generatePattern, hl, List.isEmpty_eq_false.mpr hne]

theorem generatePattern_analyses_of_none (h : Heap) (r : Nat)
    (preset : BreedPreset) (pc : Option PartialCustomizations) (now : Nat)
    (rand : String) (hb : (h.getAnalysis r).bodyPartAnalysis = none) :
    (generatePattern h r preset pc now rand).1.analyses
      = h.analyses.set r
          { h.getAnalysis r with
            bodyPartAnalysis := some (generateFallbackBodyPartAnalysis (h.getAnalysis r)) } := by
  simp [generatePattern, hb, Heap.setAnalysis]

theorem generatePattern_snd_genRef (h : Heap) (r : Nat) (preset : BreedPreset)
    (pc : Option PartialCustomizations) (now : Nat) (rand : String) :
    (generatePattern h r preset pc now rand).2.generatedPattern = h.gens.length := by
  by_cases hc : ((h.getAnalysis r).bodyPartAnalysis.getD []).isEmpty = true <;>
    simp [generatePattern, hc, Heap.allocGen, Heap.allocCust]

theorem generatePattern_snd_materials (h : Heap) (r : Nat) (preset : BreedPreset)
    (pc : Option PartialCustomizations) (now : Nat) (rand : String) :
    (generatePattern h r preset pc now rand).2.materials = matValueOf h r preset pc := by
  by_cases hc : ((h.getAnalysis r).bodyPartAnalysis.getD []).isEmpty = true <;>
    simp [generatePattern, matValueOf, mergedOf, hc]

/-- The generated-pattern value stored behind the returned pattern's
reference. -/
theorem generatePattern_storedGen (h : Heap) (r : Nat) (preset : BreedPreset)
    (pc : Option PartialCustomizations) (now : Nat) (rand : String) :
    (generatePattern h r preset pc now rand).1.getGen
        (generatePattern h r preset pc now rand).2.generatedPattern
      = genValueOf h r preset pc now := by
  rw [Heap.getGen, generatePattern_gens, generatePattern_snd_genRef, getD_concat_self]

-- ===========================================================================
-- Proof-support lemmas: characterizing `regeneratePattern`'s heap effect
-- ===========================================================================

theorem regeneratePattern_error (h : Heap) (pat : CustomPattern)
    (gp : String → Option BreedPreset) (now : Nat) (hgp : gp pat.breedId = none) :
    regeneratePattern h pat gp now
      = (h, .error ("Preset not found for breed: " ++ pat.breedId)) := by
  simp [regeneratePattern, generatePatternData, hgp]

theorem generatePatternData_of_some (h : Heap) (pat : CustomPattern)
    (gp : String → Option BreedPreset) (now : Nat) (preset : BreedPreset)
    (hgp : gp pat.breedId = some preset) :
    generatePatternData h pat gp now
      = ((generatePattern h pat.analysisResult preset
            (some (toPartial (h.getCust pat.customizations))) now "").1,
         .ok ((generatePattern h pat.analysisResult preset
            (some (toPartial (h.getCust pat.customizations))) now "").2.generatedPattern,
              (generatePattern h pat.analysisResult preset
            (some (toPartial (h.getCust pat.customizations))) now "").2.materials)) := by
  simp [generatePatternData, hgp]

theorem regeneratePattern_custs_getD (h : Heap) (pat : CustomPattern)
    (gp : String → Option BreedPreset) (now : Nat) (i : Nat)
    (hi : i < h.custs.length) (d : PatternCustomizations) :
    (regeneratePattern h pat gp now).1.custs.getD i d = h.custs.getD i d := by
  cases hgp : gp pat.breedId with
  | none => rw [regeneratePattern_error h pat gp now hgp]
  | some preset =>
    unfold regeneratePattern
    rw [generatePatternData_of_some h pat gp now preset hgp]
    cases hes : pat.editorState with
    | some r =>
      simp [hes, generatePattern_custs, Heap.setEditor, List.getElem?_append_left hi]
    | none =>
      simp [hes, Heap.allocEditor, Heap.setEditor, generatePattern_custs,
        List.getElem?_append_left hi]

theorem regeneratePattern_gens_getD (h : Heap) (pat : CustomPattern)
    (gp : String → Option BreedPreset) (now : Nat) (i : Nat)
    (hi : i < h.gens.length) (d : GeneratedPattern) :
    (regeneratePattern h pat gp now).1.gens.getD i d = h.gens.getD i d := by
  cases hgp : gp pat.breedId with
  | none => rw [regeneratePattern_error h pat gp now hgp]
  | some preset =>
    unfold regeneratePattern
    rw [generatePatternData_of_some h pat gp now preset hgp]
    cases hes : pat.editorState with
    | some r =>
      simp [hes, generatePattern_gens, Heap.setEditor, List.getElem?_append_left hi]
    | none =>
      simp [hes, Heap.allocEditor, Heap.setEditor, generatePattern_gens,
        List.getElem?_append_left hi]

-- ===========================================================================
-- Proof-support lemmas: NaN propagation
-- ===========================================================================

@[simp] theorem nadd_none_left (x : JSNum) : nadd none x = none := by cases x <;> rfl

@[simp] theorem nadd_none_right (x : JSNum) : nadd x none = none := by cases x <;> rfl

@[simp] theorem nsub_none_left (x : JSNum) : nsub none x = none := by cases x <;> rfl

@[simp] theorem nsub_none_right (x : JSNum) : nsub x none = none := by cases x <;> rfl

@[simp] theorem nmul_none_left (x : JSNum) : nmul none x = none := by cases x <;> rfl

@[simp] theorem nmul_none_right (x : JSNum) : nmul x none = none := by cases x <;> rfl

@[simp] theorem ndiv_none_left (x : JSNum) : ndiv none x = none := by cases x <;> rfl

@[simp] theorem ndiv_none_right (x : JSNum) : ndiv x none = none := by cases x <;> rfl

@[simp] theorem nmod_none_left (x : JSNum) : nmod none x = none := by cases x <;> rfl

@[simp] theorem nmod_none_right (x : JSNum) : nmod x none = none := by cases x <;> rfl

@[simp] theorem nmax3_none_fst (b c : JSNum) : nmax3 none b c = none := by
  cases b <;> cases c <;> rfl

@[simp] theorem nmax3_none_mid (a c : JSNum) : nmax3 a none c = none := by
  cases a <;> cases c <;> rfl

@[simp] theorem nmax3_none_last (a b : JSNum) : nmax3 a b none = none := by
  cases a <;> cases b <;> rfl

@[simp] theorem nmin3_none_fst (b c : JSNum) : nmin3 none b c = none := by
  cases b <;> cases c <;> rfl

@[simp] theorem nmin3_none_mid (a c : JSNum) : nmin3 a none c = none := by
  cases a <;> cases c <;> rfl

@[simp] theorem nmin3_none_last (a b : JSNum) : nmin3 a b none = none := by
  cases a <;> cases b <;> rfl

@[simp] theorem jsEqNum_none_left (x : JSNum) : jsEqNum none x = false := by
  cases x <;> rfl

@[simp] theorem jsEqNum_none_right (x : JSNum) : jsEqNum x none = false := by
  cases x <;> rfl

@[simp] theorem nlt_none (c : JQ) : nlt none c = false := rfl

@[simp] theorem ngt_none (c : JQ) : ngt none c = false := rfl

@[simp] theorem nle_none (c : JQ) : nle none c = false := rfl

@[simp] theorem nge_none (c : JQ) : nge none c = false := rfl

@[simp] theorem newPage_y (s : PagState) : (newPage s).y = CONTENT_TOP := rfl

-- ===========================================================================
-- Claim theorems
-- ===========================================================================

/-- C7: for every paginator state and requested block height `h`,
`ensureSpace(h)` starts a new page — emitting the current page's footer,
incrementing the page number, resetting `y` to the top content boundary,
and rendering the header — exactly when `y + h` would cross the bottom
content boundary, and otherwise leaves the state unchanged. -/
theorem ensureSpace_breaks_exactly_on_overflow (s : PagState) (h : ℚ) :
    (CONTENT_BOTTOM < s.y + h →
      ensureSpace s h =
        { ops := s.ops ++ [PdfOp.footer s.page, PdfOp.addPage, PdfOp.header s.title],
          y := CONTENT_TOP, page := s.page + 1, title := s.title })
    ∧ (s.y + h ≤ CONTENT_BOTTOM → ensureSpace s h = s) := by
  constructor
  · intro hlt
    simp [ensureSpace, newPage, addFooter, addHeader, hlt]
  · intro hle
    simp [ensureSpace, not_lt.mpr hle]

/-- Fixture paginator state for the `ensureSpace` witnesses. -/
def pagState0 : PagState := { ops := [], y := 270, page := 1, title := "Pattern" }

/-- Witness for C7 at `y = 270`: height 10 overflows (270 + 10 > 277) and
breaks the page; height 5 fits and is a no-op. -/
theorem ensureSpace_breaks_exactly_on_overflow_witness :
    ensureSpace pagState0 10 =
      { ops := [PdfOp.footer 1, PdfOp.addPage, PdfOp.header "Pattern"],
        y := CONTENT_TOP, page := 2, title := "Pattern" }
    ∧ ensureSpace pagState0 5 = pagState0 := by
  constructor
  · have h1 := (ensureSpace_breaks_exactly_on_overflow pagState0 10).1
      (by norm_num [pagState0, CONTENT_BOTTOM, PAGE_H, MB])
    simpa [pagState0] using h1
  · exact (ensureSpace_breaks_exactly_on_overflow pagState0 5).2
      (by norm_num [pagState0, CONTENT_BOTTOM, PAGE_H, MB])

/-- C10: `ensureSpace` gives no fitting guarantee for oversized blocks: for
any cursor inside the content band and any height strictly greater than the
content-band height `CONTENT_BOTTOM - CONTENT_TOP`, the returned state
still has `y + h` past the bottom content boundary; the fit guarantee
`y + h ≤ CONTENT_BOTTOM` holds exactly under the precondition
`h ≤ CONTENT_BOTTOM - CONTENT_TOP`. -/
theorem ensureSpace_oversized_block_overflows (s : PagState) (h : ℚ)
    (hy : CONTENT_TOP ≤ s.y) :
    (CONTENT_BOTTOM - CONTENT_TOP < h → CONTENT_BOTTOM < (ensureSpace s h).y + h)
    ∧ (h ≤ CONTENT_BOTTOM - CONTENT_TOP → (ensureSpace s h).y + h ≤ CONTENT_BOTTOM) := by
  have hCT : CONTENT_TOP = 32 := by norm_num [CONTENT_TOP, MT, HEADER_H]
  have hCB : CONTENT_BOTTOM = 277 := by norm_num [CONTENT_BOTTOM, PAGE_H, MB]
  unfold ensureSpace
  by_cases hc : s.y + h > CONTENT_BOTTOM
  · rw [if_pos hc, newPage_y, hCT, hCB]
    rw [hCT] at hy
    constructor <;> intro hh <;> [skip; skip] <;> linarith [hh]
  · rw [if_neg hc]
    rw [hCB] at hc
    rw [hCT] at hy
    push_neg at hc
    constructor <;> intro hh
    · rw [hCB]; linarith
    · rw [hCB]; linarith

/-- Witness for C10: at `y = 270` a 250 mm block (band height is 245 mm)
still overflows after `ensureSpace`, while a 200 mm block fits. -/
theorem ensureSpace_oversized_block_overflows_witness :
    CONTENT_BOTTOM < (ensureSpace pagState0 250).y + 250
    ∧ (ensureSpace pagState0 200).y + 200 ≤ CONTENT_BOTTOM := by
  constructor
  · exact (ensureSpace_oversized_block_overflows pagState0 250
      (by norm_num [pagState0, CONTENT_TOP, MT, HEADER_H])).1
      (by norm_num [CONTENT_BOTTOM, CONTENT_TOP, PAGE_H, MB, MT, HEADER_H])
  · exact (ensureSpace_oversized_block_overflows pagState0 200
      (by norm_num [pagState0, CONTENT_TOP, MT, HEADER_H])).2
      (by norm_num [CONTENT_BOTTOM, CONTENT_TOP, PAGE_H, MB, MT, HEADER_H])

/-- C8 (amended): the color classifier is total and never raises, and an
input whose `#`-stripped lowercased form is not exactly 6 characters is
returned unchanged; but a 6-character malformed input is NOT returned
unchanged — its NaN components make every threshold comparison false and
the classifier returns the final hue-bucket fallback `"Medium"`. -/
theorem hexToColorName_malformed_behavior (s : String) :
    ((normHex s).length ≠ 6 → hexToColorName s = s)
    ∧ ((normHex s).length = 6 →
        (parseIntHex (substr (normHex s) 0 2) = none ∨
         parseIntHex (substr (normHex s) 2 2) = none ∨
         parseIntHex (substr (normHex s) 4 2) = none) →
        hexToColorName s = "Medium") := by
  constructor
  · intro hne
    simp [hexToColorName, hne]
  · intro hlen hnan
    rcases hnan with hr | hg | hb
    · simp [hexToColorName, hlen, hr]
    · simp [hexToColorName, hlen, hg]
    · simp [hexToColorName, hlen, hb]

/-- Witness for C8 (amended): `"#fff"` (wrong length) is returned
unchanged; `"zzzzzz"` is 6 characters with all three components unparsable
and classifies as `"Medium"`. -/
theorem hexToColorName_malformed_behavior_witness :
    hexToColorName "#fff" = "#fff" ∧ hexToColorName "zzzzzz" = "Medium" := by
  constructor
  · exact (hexToColorName_malformed_behavior "#fff").1 (by decide)
  · exact (hexToColorName_malformed_behavior "zzzzzz").2 (by decide) (by decide)

/-- Counterexample for C8 as stated: `"zzzzzz"` is a malformed hex input,
yet the classifier does not return it unchanged — it returns `"Medium"`. -/
theorem hexToColorName_unclassifiable_not_returned_unchanged :
    hexToColorName "zzzzzz" = "Medium" ∧ hexToColorName "zzzzzz" ≠ "zzzzzz" := by
  constructor
  · decide
  · decide

/-- Default color assignment for list access. -/
def defaultCA : ColorAssignment := { colorKey := "", hexCode := "" }

/-- The claim's yardage resolution rule, stated from the specification: read
the per-color accumulator, substituting 3 yards for the `nose` key and 5
yards for any other key when the accumulator has no entry.  (The modelled
accumulator defaults to 0, and the source reads it with `|| 0` followed by
an `=== 0` test, so a missing entry and a zero entry coincide.) -/
def specResolvedYardage (preset : BreedPreset)
    (customizations : PatternCustomizations) (sizeKey : String) (key : String) : JQ :=
  let acc := materialsYardagePerColor preset customizations (materialsYardageTableFor sizeKey)
  if qeqb (acc key) 0 then (if key = "nose" then 3 else 5) else acc key

/-- C6: for every `ColorAssignment` in the palette, the materials
calculator resolves its yardage from the per-color accumulator with the
3-yard (`nose`) / 5-yard (other) substitution for missing entries, then
computes `ceil(yardage * 1.15 + 3)` floored at 3; consequently every yarn
entry's yardage is at least 3. -/
theorem materials_yardage_formula_and_floor (preset : BreedPreset)
    (customizations : PatternCustomizations) (sizeKey : String) (i : Nat)
    (hi : i < customizations.colorAssignments.length) :
    ((generateMaterialsList preset customizations sizeKey).yarns.getD i default).yardage
      = max 3 (jsCeil (specResolvedYardage preset customizations sizeKey
          ((customizations.colorAssignments.getD i defaultCA).colorKey) * (115/100) + 3))
    ∧ ∀ y ∈ (generateMaterialsList preset customizations sizeKey).yarns, 3 ≤ y.yardage := by
  constructor
  · have hlen : i < ((generateMaterialsList preset customizations sizeKey).yarns).length := by
      simpa [generateMaterialsList] using hi
    rw [List.getD_eq_getElem _ _ hlen, List.getD_eq_getElem _ _ hi]
    simp only [generateMaterialsList, List.getElem_map]
    simp [specResolvedYardage]
  · intro y hy
    simp only [generateMaterialsList, List.mem_map] at hy
    obtain ⟨a, -, rfl⟩ := hy
    exact le_max_left _ _

/-- Witness for C6 at the tiny labrador preset: the `primary` assignment
resolves 40 accumulated yards, giving `ceil(40 * 1.15 + 3) = 49`. -/
theorem materials_yardage_formula_and_floor_witness :
    (((generateMaterialsList tinyPreset baseCust "medium").yarns.getD 0 default).yardage
      = max 3 (jsCeil (specResolvedYardage tinyPreset baseCust "medium"
          ((baseCust.colorAssignments.getD 0 defaultCA).colorKey) * (115/100) + 3))
    ∧ ∀ y ∈ (generateMaterialsList tinyPreset baseCust "medium").yarns, 3 ≤ y.yardage)
    ∧ ((generateMaterialsList tinyPreset baseCust "medium").yarns.getD 0 default).yardage = 49 := by
  refine ⟨materials_yardage_formula_and_floor tinyPreset baseCust "medium" 0 (by decide), ?_⟩
  decide

/-- C9 (amended): the interpreter's output is the concatenation of its
per-row emissions; the text built for row `i` carries the starting-yarn
prefix exactly on the very first row and the color-change prefix exactly
when the resolved color key differs from the previous row's, naming the
yarn via the matching assignment's `yarnName` with fallback to the raw key
(`colorNameForKey`); and the row's emitted entry (the last element of its
emission, after any reminder) carries that text — unless the row is
detected as terminal, in which case the text is replaced by the canonical
fasten-off instruction and the prefix is lost. -/
theorem rowInterpreter_color_change_marker (rows : List JsonRow)
    (zones : List ColorZone) (customizations : PatternCustomizations)
    (mult : JQ) (diff : String) (partName : String) (i : Nat)
    (_hi : i < rows.length) :
    generateInstructionsFromJsonRows rows zones customizations mult diff partName
      = (List.range rows.length).flatMap
          (emitRowJs rows zones customizations mult diff partName)
    ∧ (i = 0 →
        emitRowText rows zones customizations diff i
          = applyDifficultyText diff
              ("With " ++ colorNameForKey customizations
                  (resolveRowColorKey zones (rows.getD i default)) ++ " yarn: " ++
                (rows.getD i default).instructions))
    ∧ (i ≠ 0 →
        resolveRowColorKey zones (rows.getD i default)
            ≠ resolveRowColorKey zones (rows.getD (i - 1) default) →
        emitRowText rows zones customizations diff i
          = applyDifficultyText diff
              ("Change to " ++ colorNameForKey customizations
                  (resolveRowColorKey zones (rows.getD i default)) ++ ". " ++
                (rows.getD i default).instructions))
    ∧ (i ≠ 0 →
        resolveRowColorKey zones (rows.getD i default)
            = resolveRowColorKey zones (rows.getD (i - 1) default) →
        emitRowText rows zones customizations diff i
          = applyDifficultyText diff (rows.getD i default).instructions)
    ∧ (emitRowIsFinal rows zones customizations diff i = false →
        (emitRowJs rows zones customizations mult diff partName i).getLast?
          = some
            { rowNumber := (rows.getD i default).rowNumber,
              instruction :=
                if emitAdjustedCount rows mult diff i > 0 then
                  "Rnd " ++ toString (rows.getD i default).rowNumber ++ ": " ++
                    emitRowText rows zones customizations diff i ++
                    " [" ++ toString (emitAdjustedCount rows mult diff i) ++ " sts]"
                else
                  "Rnd " ++ toString (rows.getD i default).rowNumber ++ ": " ++
                    emitRowText rows zones customizations diff i,
              stitchesUsed := extractStitches (emitRowText rows zones customizations diff i),
              notes :=
                if resolveRowColorKey zones (rows.getD i default) ≠ "primary" then
                  some ("Color: " ++ colorNameForKey customizations
                    (resolveRowColorKey zones (rows.getD i default)))
                else none })
    ∧ (emitRowIsFinal rows zones customizations diff i = true →
        (emitRowJs rows zones customizations mult diff partName i).getLast?
          = some
            { rowNumber := (rows.getD i default).rowNumber,
              instruction := fastenOffText,
              stitchesUsed := [],
              notes :=
                if resolveRowColorKey zones (rows.getD i default) ≠ "primary" then
                  some ("Color: " ++ colorNameForKey customizations
                    (resolveRowColorKey zones (rows.getD i default)))
                else none }) := by
  refine ⟨rfl, ?_, ?_, ?_, ?_, ?_⟩
  · intro h0
    simp only [emitRowText]
    rw [if_pos h0]
  · intro hne hcc
    simp only [emitRowText]
    rw [if_neg hne, if_pos hcc]
  · intro hne hcc
    simp only [emitRowText]
    rw [if_neg hne, if_neg (fun hn => hn hcc)]
  · intro hfin
    simp only [emitRowJs, List.getLast?_concat]
    rw [if_neg (by simp [hfin])]
  · intro hfin
    simp only [emitRowJs, List.getLast?_concat]
    rw [if_pos (by simp [hfin])]

/-- Witness for C9 (amended) on `tinyHeadRows`: row 1 (index 1) is
terminal, so its emitted entry is the fasten-off text with a color note
for its non-primary key. -/
theorem rowInterpreter_color_change_marker_witness :
    (emitRowJs tinyHeadRows [] baseCust 1 "standard" "head" 1).getLast?
      = some { rowNumber := 2, instruction := fastenOffText, stitchesUsed := [],
               notes := some "Color: secondary" } := by
  have h := (rowInterpreter_color_change_marker tinyHeadRows [] baseCust 1
    "standard" "head" 1 (by decide)).2.2.2.2.2 (by decide)
  rw [h]
  decide

/-- Counterexample for C9 as stated: in `tinyHeadRows` the second row's
resolved color key (`secondary`) differs from the first row's (`primary`),
so the claim requires a color-change prefix on its emitted instruction;
but the row is terminal (`stitchCount = 0`) and its emitted instruction is
the canonical fasten-off replacement, which carries no prefix. -/
theorem rowInterpreter_terminal_row_has_no_color_marker :
    resolveRowColorKey [] (tinyHeadRows.getD 1 default)
      ≠ resolveRowColorKey [] (tinyHeadRows.getD 0 default)
    ∧ ((generateInstructionsFromJsonRows tinyHeadRows [] baseCust 1
          "standard" "head").getD 1 default).instruction = fastenOffText
    ∧ strContains ((generateInstructionsFromJsonRows tinyHeadRows [] baseCust 1
          "standard" "head").getD 1 default).instruction "Change to" = false := by
  refine ⟨by decide, by decide, by decide⟩

/-- C1 (amended): the mutators' shallow copy `{ ...pattern }` shares the
nested customizations object, so `updateColors` writes the new assignments
through the input pattern's customizations reference — the input's nested
customizations object is mutated; and whenever the input analysis has no
`bodyPartAnalysis`, the compiler writes the synthesized fallback onto the
input analysis object. -/
theorem updateColors_and_compile_mutate_shared_inputs
    (h : Heap) (p : CustomPattern) (cas : List ColorAssignment)
    (gp : String → Option BreedPreset) (now : Nat)
    (hc : p.customizations < h.custs.length)
    (h2 : Heap) (r : Nat) (preset : BreedPreset)
    (pc : Option PartialCustomizations) (now2 : Nat) (rand : String)
    (hr : r < h2.analyses.length)
    (hb : (h2.getAnalysis r).bodyPartAnalysis = none) :
    (updateColors h p cas gp now).1.getCust p.customizations
      = { h.getCust p.customizations with colorAssignments := cas }
    ∧ (generatePattern h2 r preset pc now2 rand).1.getAnalysis r
      = { h2.getAnalysis r with
          bodyPartAnalysis := some (generateFallbackBodyPartAnalysis (h2.getAnalysis r)) } := by
  constructor
  · simp only [updateColors, Heap.getCust]
    rw [regeneratePattern_custs_getD _ _ _ _ _ (by simpa using hc)]
    simp only [setCust_custs]
    rw [getD_set_self' _ _ _ _ hc]
    rfl
  · rw [Heap.getAnalysis, generatePattern_analyses_of_none h2 r preset pc now2 rand hb,
        getD_set_self' _ _ _ _ hr]

/-- Witness for C1 (amended) at the concrete fixture. -/
theorem updateColors_and_compile_mutate_shared_inputs_witness :
    (updateColors baseHeap basePattern
        [{ colorKey := "primary", hexCode := "#000000", yarnName := some "Black" }]
        getPresetTiny 4).1.getCust 0
      = { baseHeap.getCust 0 with colorAssignments :=
          [{ colorKey := "primary", hexCode := "#000000", yarnName := some "Black" }] }
    ∧ (generatePattern baseHeap 0 tinyPreset none 7 "r").1.getAnalysis 0
      = { baseHeap.getAnalysis 0 with
          bodyPartAnalysis := some (generateFallbackBodyPartAnalysis (baseHeap.getAnalysis 0)) } :=
  updateColors_and_compile_mutate_shared_inputs baseHeap basePattern
    [{ colorKey := "primary", hexCode := "#000000", yarnName := some "Black" }]
    getPresetTiny 4 (by decide) baseHeap 0 tinyPreset none 7 "r" (by decide) (by decide)

/-- Counterexample for C1 as stated: at the concrete fixture,
`updateColors` changes the input pattern's nested customizations object
(its color assignments go from Brown to Black), and `generatePattern`
writes a fallback `bodyPartAnalysis` onto its input analysis. -/
theorem updateColors_mutates_input_pattern_cex :
    (baseHeap.getCust basePattern.customizations).colorAssignments
      = [{ colorKey := "primary", hexCode := "#8B4513", yarnName := some "Brown" }]
    ∧ ((updateColors baseHeap basePattern
          [{ colorKey := "primary", hexCode := "#000000", yarnName := some "Black" }]
          getPresetTiny 4).1.getCust basePattern.customizations).colorAssignments
        ≠ (baseHeap.getCust basePattern.customizations).colorAssignments
    ∧ (baseHeap.getAnalysis basePattern.analysisResult).bodyPartAnalysis = none
    ∧ ((generatePattern baseHeap 0 tinyPreset none 7 "r").1.getAnalysis 0).bodyPartAnalysis
        ≠ none := by
  refine ⟨by decide, by decide, by decide, by decide⟩

/-- C3 (amended): `setDifficulty(pattern, 'simplified')` runs the
run-length merge — `[A, A, A, B]` becomes exactly `[A "[repeat for 3
rows]", B]` — but on the generated pattern the input pattern still
references (mutating it in place); the returned pattern's sections are
then rebuilt by full recompilation and are not the merged ones. -/
theorem setDifficulty_simplified_merges_shared_generated_pattern
    (h : Heap) (p : CustomPattern) (gp : String → Option BreedPreset) (now : Nat)
    (hg : p.generatedPattern < h.gens.length)
    (a b : StitchInstruction) (hne : a.instruction ≠ b.instruction) :
    (setDifficulty h p "simplified" gp now).1.getGen p.generatedPattern
      = simplifyPatternGen (h.getGen p.generatedPattern)
    ∧ rleMerge none [a, a, a, b]
      = [{ a with instruction := a.instruction ++ " [repeat for 3 rows]" }, b] := by
  constructor
  · simp only [setDifficulty, Heap.getGen, if_true]
    rw [regeneratePattern_gens_getD _ _ _ _ _ (by simpa using hg)]
    simp only [setGen_gens, setCust_gens]
    rw [getD_set_self' _ _ _ _ (by simpa using hg)]
    rfl
  · simp only [rleMerge, if_true, if_neg hne]
    norm_num [annotRepeat]
    rw [String.append_assoc, String.append_assoc]
    rfl

/-- Witness for C3 (amended) at the concrete fixture: the input's
generated-pattern cell is merged in place. -/
theorem setDifficulty_simplified_merges_shared_generated_pattern_witness :
    ((setDifficulty baseHeap basePattern "simplified" getPresetTiny 9).1.getGen 0
        = simplifyPatternGen (baseHeap.getGen 0)
      ∧ rleMerge none [instrA, instrA, instrA, instrB]
        = [{ instrA with instruction := instrA.instruction ++ " [repeat for 3 rows]" }, instrB])
    ∧ ((setDifficulty baseHeap basePattern "simplified" getPresetTiny 9).1.getGen 0).sections.map
        (fun s => s.instructions.map (fun t => t.instruction))
      = [["Sc 6 [repeat for 3 rows]", "Inc 6"]] := by
  refine ⟨setDifficulty_simplified_merges_shared_generated_pattern baseHeap basePattern
    getPresetTiny 9 (by decide) instrA instrB (by decide), ?_⟩
  decide

/-- Counterexample for C3 as stated: at the concrete fixture — the input
pattern's section instructions are `[A, A, A, B]` — the pattern returned
by `setDifficulty(·, 'simplified')` does not have the merged
`[A "[repeat for 3 rows]", B]` instruction list: its sections were rebuilt
by recompilation (the merge landed only on the input's old generated
pattern). -/
theorem setDifficulty_returned_sections_not_merged_cex :
    ((setDifficulty baseHeap basePattern "simplified" getPresetTiny 9).2.toOption.map
        (fun q => q.generatedPattern)) = some 1
    ∧ (((setDifficulty baseHeap basePattern "simplified" getPresetTiny 9).1.getGen 1).sections.map
        (fun s => s.instructions))
      ≠ [[{ instrA with instruction := "Sc 6 [repeat for 3 rows]" }, instrB]] := by
  refine ⟨by decide, by decide⟩

-- ===========================================================================
-- Order facts for `qleb` (used by the clamp claim)
-- ===========================================================================

theorem qleb_refl (a : JQ) : qleb a a = true := by
  simp [qleb]

theorem qleb_flip {a b : JQ} (hn : qleb a b = false) : qleb b a = true := by
  simp only [qleb, decide_eq_false_iff_not, not_le] at hn
  simp only [qleb, decide_eq_true_eq]
  exact le_of_lt hn

/-- Projection of the `applyCustomizations` merge at `proportionAdjustments`
when the caller supplies a proportion map: the JS object spread, i.e. new
entries override, old entries survive — with no clamping. -/
theorem applyCustMerge_proportionAdjustments (pc : PartialCustomizations)
    (c : PatternCustomizations) (f : String → Option JQ) (k : String)
    (hpa : pc.proportionAdjustments = some f) :
    (applyCustMerge pc c).proportionAdjustments k
      = (f k).orElse (fun _ => c.proportionAdjustments k) := by
  rcases pc with ⟨ca, tf, pa, dl, hso, ywo, sm, nt⟩
  obtain rfl : pa = some f := hpa
  cases ca <;> cases tf <;> cases dl <;> cases hso <;> cases ywo <;> cases sm <;> cases nt <;>
    simp [applyCustMerge, apply_ite PatternCustomizations.proportionAdjustments]

/-- C4 (amended): `adjustProportions` clamps its modifier to `[0.5, 2.0]`
before storing; but `applyCustomizations` is an unclamped merge — any
value supplied in its `proportionAdjustments` map is stored verbatim, so
the clamp invariant is not enforced at that mutation boundary. -/
theorem adjustProportions_clamps_but_applyCustomizations_does_not
    (h : Heap) (p : CustomPattern) (part : String) (m : JQ)
    (gp : String → Option BreedPreset) (now : Nat)
    (hc : p.customizations < h.custs.length)
    (pc : PartialCustomizations) (f : String → Option JQ) (k : String) (v : JQ)
    (hpa : pc.proportionAdjustments = some f) (hk : f k = some v) :
    ((adjustProportions h p part m gp now).1.getCust p.customizations).proportionAdjustments part
      = some (qmax (1/2) (qmin 2 m))
    ∧ qleb (1/2) (qmax (1/2) (qmin 2 m)) = true
    ∧ qleb (qmax (1/2) (qmin 2 m)) 2 = true
    ∧ ((applyCustomizations h p pc gp now).1.getCust p.customizations).proportionAdjustments k
      = some v := by
  refine ⟨?_, ?_, ?_, ?_⟩
  · simp only [adjustProportions, Heap.getCust]
    rw [regeneratePattern_custs_getD _ _ _ _ _ (by simpa using hc)]
    simp only [setCust_custs]
    rw [getD_set_self' _ _ _ _ hc]
    simp
  · by_cases hx : qleb (1/2) (qmin 2 m) = true
    · simp only [qmax, hx, if_true]
    · simp only [qmax, hx]
      simp [qleb_refl]
  · by_cases hx : qleb (1/2) (qmin 2 m) = true
    · simp only [qmax, hx, if_true]
      by_cases hm : qleb 2 m = true
      · simp only [qmin, hm, if_true]
        exact qleb_refl 2
      · simp only [qmin, hm]
        simp only [Bool.not_eq_true] at hm
        exact qleb_flip hm
    · simp only [qmax, hx]
      simp
      decide
  · simp only [applyCustomizations, Heap.getCust]
    rw [regeneratePattern_custs_getD _ _ _ _ _ (by simpa using hc)]
    simp only [setCust_custs]
    rw [getD_set_self' _ _ _ _ hc]
    rw [applyCustMerge_proportionAdjustments pc _ f k hpa]
    simp [hk, Option.orElse]

/-- Fixture: an unclamped proportion adjustment of 5 for the head. -/
def bigAdjust : PartialCustomizations :=
  { proportionAdjustments := some (fun k => if k = "head" then some 5 else none) }

/-- Witness for C4 (amended) at modifier 5: `adjustProportions` stores the
clamped value while `applyCustomizations` stores 5 verbatim. -/
theorem adjustProportions_clamps_witness :
    ((adjustProportions baseHeap basePattern "head" 5 getPresetTiny 3).1.getCust 0).proportionAdjustments "head"
      = some (qmax (1/2) (qmin 2 5))
    ∧ qleb (1/2) (qmax (1/2) (qmin 2 5)) = true
    ∧ qleb (qmax (1/2) (qmin 2 5)) 2 = true
    ∧ ((applyCustomizations baseHeap basePattern bigAdjust getPresetTiny 3).1.getCust 0).proportionAdjustments "head"
      = some 5 :=
  adjustProportions_clamps_but_applyCustomizations_does_not baseHeap basePattern
    "head" 5 getPresetTiny 3 (by decide) bigAdjust
    (fun k => if k = "head" then some 5 else none) "head" 5 rfl (by decide)

/-- Counterexample for C4 as stated: `applyCustomizations` with a
proportion adjustment of 5 stores 5 in the resulting pattern's
customizations (the returned pattern's customizations reference is the
shared cell), and 5 exceeds the claimed 2.0 upper bound. -/
theorem applyCustomizations_stores_unclamped_value_cex :
    (applyCustomizations baseHeap basePattern bigAdjust getPresetTiny 3).2.toOption.map
        (fun q => q.customizations) = some 0
    ∧ ((applyCustomizations baseHeap basePattern bigAdjust getPresetTiny 3).1.getCust 0).proportionAdjustments "head"
        = some 5
    ∧ qleb 5 2 = false := by
  refine ⟨by decide, by decide, by decide⟩

-- ===========================================================================
-- C5: missing preset
-- ===========================================================================

/-- Fixture: the black replacement palette used by the mutation claims. -/
def blackCAList : List ColorAssignment :=
  [{ colorKey := "primary", hexCode := "#000000", yarnName := some "Black" }]

/-- C5 (amended): with no preset for the pattern's breed, every Customizer
mutator propagates the lookup failure `Preset not found for breed: …`
rather than silently defaulting; but by the time the error is raised the
mutator has already written its delta through the shared customizations
object, so the caller's input pattern is not left entirely untouched — its
nested customizations (and, for `setDifficulty`, its generated pattern)
have been modified, while the analysis and generated-pattern stores are
otherwise untouched on this path. -/
theorem mutators_throw_on_missing_preset_after_mutating_shared_state
    (h : Heap) (p : CustomPattern) (cas : List ColorAssignment) (feat : String)
    (en : Bool) (part : String) (m : JQ) (pc : PartialCustomizations)
    (gp : String → Option BreedPreset) (now : Nat)
    (hgp : gp p.breedId = none) (hc : p.customizations < h.custs.length) :
    (updateColors h p cas gp now).2
        = Except.error ("Preset not found for breed: " ++ p.breedId)
    ∧ (updateColors h p cas gp now).1.getCust p.customizations
        = { h.getCust p.customizations with colorAssignments := cas }
    ∧ (updateColors h p cas gp now).1.analyses = h.analyses
    ∧ (updateColors h p cas gp now).1.gens = h.gens
    ∧ (toggleFeature h p feat en gp now).2
        = Except.error ("Preset not found for breed: " ++ p.breedId)
    ∧ ((toggleFeature h p feat en gp now).1.getCust p.customizations).toggledFeatures feat
        = some en
    ∧ (adjustProportions h p part m gp now).2
        = Except.error ("Preset not found for breed: " ++ p.breedId)
    ∧ (setDifficulty h p "simplified" gp now).2
        = Except.error ("Preset not found for breed: " ++ p.breedId)
    ∧ (applyCustomizations h p pc gp now).2
        = Except.error ("Preset not found for breed: " ++ p.breedId) := by
  refine ⟨?_, ?_, ?_, ?_, ?_, ?_, ?_, ?_, ?_⟩
  · simp only [updateColors]
    exact congrArg Prod.snd (regeneratePattern_error _ { p with updatedAt := now } _ _ hgp)
  · simp only [updateColors, Heap.getCust]
    rw [regeneratePattern_custs_getD _ _ _ _ _ (by simpa using hc)]
    simp only [setCust_custs]
    rw [getD_set_self' _ _ _ _ hc]
    rfl
  · simp only [updateColors]
    exact (congrArg (fun x => x.1.analyses)
      (regeneratePattern_error _ { p with updatedAt := now } _ _ hgp)).trans rfl
  · simp only [updateColors]
    exact (congrArg (fun x => x.1.gens)
      (regeneratePattern_error _ { p with updatedAt := now } _ _ hgp)).trans rfl
  · simp only [toggleFeature]
    exact congrArg Prod.snd (regeneratePattern_error _ { p with updatedAt := now } _ _ hgp)
  · simp only [toggleFeature, Heap.getCust]
    rw [regeneratePattern_custs_getD _ _ _ _ _ (by simpa using hc)]
    simp only [setCust_custs]
    rw [getD_set_self' _ _ _ _ hc]
    simp
  · simp only [adjustProportions]
    exact congrArg Prod.snd (regeneratePattern_error _ { p with updatedAt := now } _ _ hgp)
  · simp only [setDifficulty, if_true]
    exact congrArg Prod.snd (regeneratePattern_error _ { p with updatedAt := now } _ _ hgp)
  · simp only [applyCustomizations]
    exact congrArg Prod.snd (regeneratePattern_error _ { p with updatedAt := now } _ _ hgp)

/-- Witness for C5 (amended): against an empty preset table, `updateColors`
raises the lookup failure, and the input's shared customizations cell shows
the already-written delta. -/
theorem mutators_throw_on_missing_preset_witness :
    (updateColors baseHeap basePattern blackCAList getPresetNone 4).2
      = Except.error "Preset not found for breed: labrador"
    ∧ (updateColors baseHeap basePattern blackCAList getPresetNone 4).1.getCust 0
      = { baseHeap.getCust 0 with colorAssignments := blackCAList } := by
  have hfull := mutators_throw_on_missing_preset_after_mutating_shared_state
    baseHeap basePattern blackCAList "ear" false "head" 5 {} getPresetNone 4
    rfl (by decide)
  exact ⟨hfull.1.trans (by rfl), hfull.2.1⟩

/-- Counterexample for C5 as stated: the missing-preset error is raised,
yet the caller's input pattern is not left untouched — the nested
customizations object it shares with the copy has already been modified
when the error propagates. -/
theorem updateColors_missing_preset_mutates_input_cex :
    (updateColors baseHeap basePattern blackCAList getPresetNone 4).2
      = Except.error "Preset not found for breed: labrador"
    ∧ ((updateColors baseHeap basePattern blackCAList getPresetNone 4).1.getCust 0).colorAssignments
      ≠ (baseHeap.getCust 0).colorAssignments := by
  refine ⟨by decide, by decide⟩

-- ===========================================================================
-- C2: idempotence of compilation
-- ===========================================================================

/-- Fixture: the no-`bodyPartAnalysis` analysis completed with the
fallback the compiler would synthesize. -/
def analysisWithBpa : DogAnalysisResult :=
  { analysisNoBpa with
    bodyPartAnalysis := some (generateFallbackBodyPartAnalysis analysisNoBpa) }

/-- Fixture heap whose analysis already carries a `bodyPartAnalysis`. -/
def bpaHeap : Heap :=
  { analyses := [analysisWithBpa], custs := [], gens := [], editors := [] }

/-- C2 (amended): compiling the same `(analysis, preset, customizations)`
twice yields identical sections (hence identical ordering, notes and
instruction text) and identical materials, provided the analysis carries a
nonempty `bodyPartAnalysis` — in that case the compile also leaves the
analysis store untouched.  (Without one, the first compile writes the
fallback onto the analysis and the second compile can differ; see the
counterexample.) -/
theorem generatePattern_idempotent_given_bodyPartAnalysis
    (h : Heap) (r : Nat) (preset : BreedPreset) (pc : Option PartialCustomizations)
    (now : Nat) (rand : String) (l : List BodyPartAnalysis)
    (hl : (h.getAnalysis r).bodyPartAnalysis = some l) (hne : l ≠ []) :
    ((generatePattern h r preset pc now rand).1.getGen
        (generatePattern h r preset pc now rand).2.generatedPattern).sections
      = ((generatePattern (generatePattern h r preset pc now rand).1 r preset pc now rand).1.getGen
          (generatePattern (generatePattern h r preset pc now rand).1 r preset pc now rand).2.generatedPattern).sections
    ∧ (generatePattern h r preset pc now rand).2.materials
      = (generatePattern (generatePattern h r preset pc now rand).1 r preset pc now rand).2.materials
    ∧ (generatePattern h r preset pc now rand).1.analyses = h.analyses := by
  have hkeep := generatePattern_analyses_of_nonempty h r preset pc now rand l hl hne
  have hA : (generatePattern h r preset pc now rand).1.getAnalysis r = h.getAnalysis r := by
    rw [Heap.getAnalysis, Heap.getAnalysis, hkeep]
  refine ⟨?_, ?_, hkeep⟩
  · rw [generatePattern_storedGen, generatePattern_storedGen]
    unfold genValueOf mergedOf
    rw [hA]
  · rw [generatePattern_snd_materials, generatePattern_snd_materials]
    unfold matValueOf mergedOf
    rw [hA]

/-- Witness for C2 (amended) at the completed fixture analysis. -/
theorem generatePattern_idempotent_witness :
    ((generatePattern bpaHeap 0 tinyPreset none 7 "r").1.getGen
        (generatePattern bpaHeap 0 tinyPreset none 7 "r").2.generatedPattern).sections
      = ((generatePattern (generatePattern bpaHeap 0 tinyPreset none 7 "r").1 0 tinyPreset none 7 "r").1.getGen
          (generatePattern (generatePattern bpaHeap 0 tinyPreset none 7 "r").1 0 tinyPreset none 7 "r").2.generatedPattern).sections
    ∧ (generatePattern bpaHeap 0 tinyPreset none 7 "r").2.materials
      = (generatePattern (generatePattern bpaHeap 0 tinyPreset none 7 "r").1 0 tinyPreset none 7 "r").2.materials :=
  ⟨(generatePattern_idempotent_given_bodyPartAnalysis bpaHeap 0 tinyPreset none 7 "r"
      (generateFallbackBodyPartAnalysis analysisNoBpa) rfl (by decide)).1,
   (generatePattern_idempotent_given_bodyPartAnalysis bpaHeap 0 tinyPreset none 7 "r"
      (generateFallbackBodyPartAnalysis analysisNoBpa) rfl (by decide)).2.1⟩

/-- Counterexample for C2 as stated: when the analysis initially has no
`bodyPartAnalysis`, compiling twice on the same inputs does NOT yield
byte-identical section notes — the first compile writes the fallback
analysis onto its input, and the second compile picks up the fallback's
crochet notes in its section notes. -/
theorem generatePattern_not_idempotent_without_bpa_cex :
    (((generatePattern baseHeap 0 tinyPreset none 7 "r").1.getGen
        (generatePattern baseHeap 0 tinyPreset none 7 "r").2.generatedPattern).sections.map
          (fun s => s.notes))
      ≠ (((generatePattern (generatePattern baseHeap 0 tinyPreset none 7 "r").1 0 tinyPreset none 7 "r").1.getGen
          (generatePattern (generatePattern baseHeap 0 tinyPreset none 7 "r").1 0 tinyPreset none 7 "r").2.generatedPattern).sections.map
            (fun s => s.notes)) := by
  decide

end Pup
